import Mathlib

/-!
The confirmable request/response exchange of the nanocoap CLI.

A shallow embedding of `nanocoap_request` (src/nanocoap_cli.c, lines 35-92),
followed by one of `_send` and `nanocoap_cli_cmd` (lines 94-226).

The socket primitives (`sock_udp_create`, `sock_udp_send`, `sock_udp_recv`,
`sock_udp_close`) and the decoder `coap_parse` are external to the repository.
They are represented by a `Transport`: a script giving the result of each call,
indexed by the number of the call.  Since the function is deterministic, the
run against any environment is the run against the script of results that this
environment produced, so scripts cover every behaviour of the collaborators.

The calls the function makes are recorded, in order, as a list of `Event`s.
-/

namespace NanocoapCli

/-- Contents of a byte buffer, one entry per `uint8_t`. -/
abbrev Bytes := List Nat

/-- Compile-time constants used by `nanocoap_request`; their definitions are in
headers outside this file (`net/nanocoap.h`, `errno.h`), so they are parameters.
`errno` codes are positive `int` constants, hence naturals here, negated at
their uses.  `COAP_MAX_RETRANSMIT + 1` is stored in an `int`; it is taken to be
representable there. -/
structure Config where
  COAP_PORT : Nat
  COAP_ACK_TIMEOUT : Nat
  COAP_MAX_RETRANSMIT : Nat
  ETIMEDOUT : Nat
  EBADMSG : Nat
deriving DecidableEq, Repr

/-- The type `sock_udp_ep_t`: family, address bytes, interface, port. -/
structure Endpoint where
  family : Nat
  addr : List Nat
  netif : Nat
  port : Nat
deriving DecidableEq, Repr

/-- The fields of `coap_pkt_t` read by `nanocoap_request`.  `hdr` and `payload`
are addresses, `buf` is the memory that starts at `hdr`. -/
structure Pkt where
  hdr : Nat
  payload : Nat
  payload_len : Nat
  buf : Bytes
deriving DecidableEq, Repr

/-- Script of the external collaborators.  `send k`, `recv k` and `parse k` are
the results of the call made in loop iteration `k` (counted from 0), and
`recvBuf k b` is the buffer content left by the receive of iteration `k` when
it was handed a buffer holding `b`. -/
structure Transport where
  create : Int
  send : Nat → Int
  recv : Nat → Int
  recvBuf : Nat → Bytes → Bytes
  parse : Nat → Int

/-- One call to an external collaborator, with the arguments that matter. -/
inductive Event where
  | create (loc : Option Endpoint) (remote : Endpoint)
  | send (data : Bytes) (len : Nat)
  | recv (len : Nat) (timeout : Nat)
  | parse (len : Int)
  | close
deriving DecidableEq, Repr

/-- Width of `uint32_t`. -/
def UINT32_MOD : Nat := 2 ^ 32

/-- State of the function when the `while` statement has been left: the value
of `res`, the value of `tries`, whether it was left by `goto out` (bypassing the
test of `tries` at line 82), the buffer, and the calls made in the loop. -/
structure LoopExit where
  res : Int
  tries : Int
  viaGoto : Bool
  buf : Bytes
  trace : List Event
deriving DecidableEq, Repr

/-- The loop of lines 55-81.  The first argument is the value of `tries` when
the condition `tries--` is evaluated; it starts at `COAP_MAX_RETRANSMIT + 1`
and only decreases by one per test, so it is a natural number at every test.
When the test finds 0 the loop ends and the post-decrement leaves `tries = -1`.
`k` is the number of the iteration, `res` the current value of `res`. -/
def requestLoop (cfg : Config) (T : Transport) (pdu_len len : Nat) :
    Nat → Nat → Int → Nat → Bytes → LoopExit
  | 0, _, res, _, buf =>
      { res := res, tries := -1, viaGoto := false, buf := buf, trace := [] }
  | t + 1, k, _, timeout, buf =>
      let evSend := Event.send (buf.take pdu_len) pdu_len
      let res := T.send k
      if res ≤ 0 then
        { res := res, tries := t, viaGoto := true, buf := buf, trace := [evSend] }
      else
        let evRecv := Event.recv len timeout
        let res := T.recv k
        let buf := T.recvBuf k buf
        if res ≤ 0 then
          if res = -(cfg.ETIMEDOUT : Int) then
            let r := requestLoop cfg T pdu_len len t (k + 1) res
              (timeout * 2 % UINT32_MOD) buf
            { r with trace := evSend :: evRecv :: r.trace }
          else
            { res := res, tries := t, viaGoto := false, buf := buf,
              trace := [evSend, evRecv] }
        else
          let evParse := Event.parse res
          let res := if T.parse k < 0 then -(cfg.EBADMSG : Int) else res
          { res := res, tries := t, viaGoto := false, buf := buf,
            trace := [evSend, evRecv, evParse] }

/-- What a call of `nanocoap_request` leaves behind: the returned value, the
calls made, the final buffer and the (possibly updated) remote endpoint. -/
structure Outcome where
  res : Int
  trace : List Event
  buf : Bytes
  remote : Endpoint
deriving DecidableEq, Repr

/-- The function `nanocoap_request` (lines 35-92). -/
def nanocoap_request (cfg : Config) (T : Transport) (pkt : Pkt)
    (loc : Option Endpoint) (remote : Endpoint) (len : Nat) : Outcome :=
  let pdu_len := (pkt.payload - pkt.hdr) + pkt.payload_len
  let buf := pkt.buf
  let remote := if remote.port = 0 then { remote with port := cfg.COAP_PORT } else remote
  let res := T.create
  if res < 0 then
    { res := res, trace := [Event.create loc remote], buf := buf, remote := remote }
  else
    let timeout := cfg.COAP_ACK_TIMEOUT * 1000000 % UINT32_MOD
    let tries := cfg.COAP_MAX_RETRANSMIT + 1
    let r := requestLoop cfg T pdu_len len tries 0 res timeout buf
    let res := if !r.viaGoto && r.tries == 0 then -(cfg.ETIMEDOUT : Int) else r.res
    { res := res, trace := Event.create loc remote :: (r.trace ++ [Event.close]),
      buf := r.buf, remote := remote }

/-- The loop as `nanocoap_request` enters it once the socket is open. -/
def entryLoop (cfg : Config) (T : Transport) (pkt : Pkt) (len : Nat) : LoopExit :=
  requestLoop cfg T ((pkt.payload - pkt.hdr) + pkt.payload_len) len
    (cfg.COAP_MAX_RETRANSMIT + 1) 0 T.create
    (cfg.COAP_ACK_TIMEOUT * 1000000 % UINT32_MOD) pkt.buf

/-- Number of calls to `sock_udp_send` in a trace. -/
def sends : List Event → Nat
  | [] => 0
  | Event.send _ _ :: es => sends es + 1
  | _ :: es => sends es

/-- Number of calls to `sock_udp_recv` in a trace. -/
def recvs : List Event → Nat
  | [] => 0
  | Event.recv _ _ :: es => recvs es + 1
  | _ :: es => recvs es

/-- Number of calls to `sock_udp_close` in a trace. -/
def closes : List Event → Nat
  | [] => 0
  | Event.close :: es => closes es + 1
  | _ :: es => closes es

/-- The timeout arguments of the calls to `sock_udp_recv`, in call order. -/
def recvTimeouts : List Event → List Nat
  | [] => []
  | Event.recv _ t :: es => t :: recvTimeouts es
  | _ :: es => recvTimeouts es

/-- The data and length arguments of the calls to `sock_udp_send`, in call order. -/
def sentFrames : List Event → List (Bytes × Nat)
  | [] => []
  | Event.send d l :: es => (d, l) :: sentFrames es
  | _ :: es => sentFrames es

/-- Constants of a RIOT build with the stock values: port 5683, 2 s
acknowledgement timeout, 4 retransmissions, newlib error numbers. -/
def riotConfig : Config :=
  { COAP_PORT := 5683, COAP_ACK_TIMEOUT := 2, COAP_MAX_RETRANSMIT := 4,
    ETIMEDOUT := 116, EBADMSG := 77 }

/-- A seven byte request: four header bytes, token `DA EC`, and one option byte,
in a buffer of 16 bytes. -/
def samplePkt : Pkt :=
  { hdr := 1000, payload := 1007, payload_len := 0,
    buf := [0x42, 0x01, 0x00, 0x01, 0xDA, 0xEC, 0xB1, 0, 0, 0, 0, 0, 0, 0, 0, 0] }

/-- A remote endpoint with an explicit port. -/
def sampleRemote : Endpoint :=
  { family := 10, addr := [0xfe, 0x80, 0, 0, 0, 0, 0, 0, 0, 0, 0, 0, 0, 0, 0, 1],
    netif := 6, port := 5683 }

/-- A peer that stays silent for the first `silent` receives and then delivers
`n` bytes (the result `n` of the receive; the buffer is overwritten with
`reply`), which the decoder answers with `parseRes`. -/
def replyAfter (cfg : Config) (silent : Nat) (n : Int) (reply : Bytes)
    (parseRes : Int) : Transport :=
  { create := 0
    send := fun _ => 7
    recv := fun k => if k < silent then -(cfg.ETIMEDOUT : Int) else n
    recvBuf := fun k b => if k < silent then b else reply ++ b.drop reply.length
    parse := fun _ => parseRes }

/-- A peer that never answers: every receive times out and leaves the buffer
as it was. -/
def silentPeer (cfg : Config) : Transport :=
  { create := 0
    send := fun _ => 7
    recv := fun _ => -(cfg.ETIMEDOUT : Int)
    recvBuf := fun _ b => b
    parse := fun _ => 0 }

/-- A silent peer, with a local stack whose send of iteration `j` returns `e`. -/
def sendFailsAt (cfg : Config) (j : Nat) (e : Int) : Transport :=
  { silentPeer cfg with send := fun k => if k = j then e else 7 }

/-- A stack on which `sock_udp_create` returns `e`. -/
def createReturns (cfg : Config) (e : Int) : Transport :=
  { silentPeer cfg with create := e }

/-- Constants of the scenario of the specification: 1 s acknowledgement timeout
and 4 retransmissions. -/
def oneSecondConfig : Config :=
  { riotConfig with COAP_ACK_TIMEOUT := 1 }

/-- Constants with the stock 2 s acknowledgement timeout and 12 retransmissions. -/
def patientConfig : Config :=
  { riotConfig with COAP_MAX_RETRANSMIT := 12 }

/-- Number of calls to `coap_parse` in a trace. -/
def parses : List Event → Nat
  | [] => 0
  | Event.parse _ :: es => parses es + 1
  | _ :: es => parses es

/-- Whether the sends and the receives of a trace strictly alternate.  The flag
tells which of the two is due next: a send (`true`) or a receive (`false`).
Calls other than sends and receives are passed over. -/
def alternates : Bool → List Event → Bool
  | _, [] => true
  | expectSend, Event.send _ _ :: es => expectSend && alternates false es
  | expectSend, Event.recv _ _ :: es => !expectSend && alternates true es
  | expectSend, _ :: es => alternates expectSend es

/-! ## The command `nanocoap_cli_cmd` and its helper `_send`

A shallow embedding of lines 94-226.  C strings are lists of bytes without the
terminating NUL.  What the command prints is recorded as a list of `Output`s.
The nanocoap library, the network stack helpers, `atoi` and the timer are
outside the repository and are parameters (`CoapLib`, `NetEnv`, a clock). -/

/-- An ASCII string literal of the source as a C string. -/
def cstr (s : String) : Bytes := s.toList.map Char.toNat

/-- The function `strlen`. -/
def strlen (s : Bytes) : Nat := s.length

/-- Width of `uint16_t`, the type of `sock_udp_ep_t.netif`, of
`sock_udp_ep_t.port` and of `coap_pkt_t.payload_len`. -/
def UINT16_MOD : Nat := 2 ^ 16

/-- Conversion of an `int` to `uint16_t`. -/
def toUint16 (x : Int) : Nat := (x % (UINT16_MOD : Int)).toNat

/-- One piece of output of the command, per `puts` or `printf` call (the last
`printf` of a response line is split into its alternatives). -/
inductive Output where
  | puts (msg : String)
  | sending (id len elapsed : Nat)
  | sendFailed (res : Int)
  | response (class_str : String) (cls detail : Nat)
  | payloadText (len : Nat) (payload : Bytes)
  | payloadSize (len : Nat)
  | hexDump (payload : Bytes)
  | emptyPayload
  | usage (argv0 : Bytes)
deriving DecidableEq, Repr

/-- Whether an output is the diagnostic `nanocoap_cli: msg send failed: %d`. -/
def Output.isSendFailed : Output → Bool
  | Output.sendFailed _ => true
  | _ => false

/-- Whether an output is the line `nanocoap: response %s, code %1u.%02u`. -/
def Output.isResponse : Output → Bool
  | Output.response _ _ _ => true
  | _ => false

/-- Functions and constants of the network stack and of libc used by `_send`.
`ipv6_addr_split_iface` gives the interface number (`-1` if there is none) and
the address string it leaves; `gnrc_netif_iter_pid` is
`gnrc_netif_iter(NULL)->pid`; `gnrc_netif_get_by_pid` tells whether the result
is not `NULL`; `ipv6_addr_from_str` gives the 16 address bytes, or `none` for
`NULL`. -/
structure NetEnv where
  AF_INET6 : Nat
  SOCK_ADDR_ANY_NETIF : Nat
  ipv6_addr_split_iface : Bytes → Int × Bytes
  gnrc_netif_numof : Nat
  gnrc_netif_iter_pid : Int
  gnrc_netif_get_by_pid : Int → Bool
  ipv6_addr_from_str : Bytes → Option (List Nat)
  ipv6_addr_is_link_local : List Nat → Bool
  atoi : Bytes → Int

/-- Functions and constants of the nanocoap library used by the command.  The
functions that write through the packet take the packet, with its buffer, and
give the packet they leave; `coap_build_hdr` also gives the header length and
`coap_opt_finish` the encoded length.  `coap_parse_pkt p n` is the packet that
`coap_parse` leaves when it is run on the `n` received bytes in the buffer of `p`. -/
structure CoapLib where
  COAP_TYPE_CON : Nat
  COAP_OPT_URI_PATH : Nat
  COAP_OPT_CONTENT_FORMAT : Nat
  COAP_FORMAT_TEXT : Nat
  COAP_FORMAT_LINK : Nat
  COAP_OPT_FINISH_PAYLOAD : Nat
  COAP_OPT_FINISH_NONE : Nat
  COAP_CLASS_SUCCESS : Nat
  COAP_CLASS_CLIENT_FAILURE : Nat
  COAP_CLASS_SERVER_FAILURE : Nat
  coap_build_hdr : Pkt → Nat → List Nat → Nat → Nat → Nat → Pkt × Int
  coap_pkt_init : Pkt → Nat → Int → Pkt
  coap_opt_add_string : Pkt → Nat → Bytes → Nat → Pkt
  coap_opt_add_uint : Pkt → Nat → Nat → Pkt
  coap_opt_finish : Pkt → Nat → Pkt × Nat
  coap_get_id : Pkt → Nat
  coap_get_code_class : Pkt → Nat
  coap_get_code_detail : Pkt → Nat
  coap_get_content_type : Pkt → Nat
  coap_parse_pkt : Pkt → Int → Pkt

/-- What a call of `_send` leaves behind: the returned value, what it printed,
and the exchange it ran, if it got that far. -/
structure SendResult where
  res : Int
  output : List Output
  exchange : Option Outcome
deriving DecidableEq, Repr

/-- An early `return 0` of `_send` after a `puts`. -/
def rejected (msg : String) : SendResult :=
  { res := 0, output := [Output.puts msg], exchange := none }

/-- Lines 120-138 of `_send`, once `remote.netif` is assigned. -/
def sendResolved (net : NetEnv) (cfg : Config) (T : Transport) (pkt : Pkt) (len : Nat)
    (netif : Nat) (addr_str port_str : Bytes) : SendResult :=
  match net.ipv6_addr_from_str addr_str with
  | none => rejected "gcoap_cli: unable to parse destination address"
  | some addr =>
      if netif = net.SOCK_ADDR_ANY_NETIF ∧ net.ipv6_addr_is_link_local addr = true then
        rejected "gcoap_cli: must specify interface for link local target"
      else
        let port := toUint16 (net.atoi port_str)
        if port = 0 then
          rejected "gcoap_cli: unable to parse destination port"
        else
          let o := nanocoap_request cfg T pkt none
            { family := net.AF_INET6, addr := addr, netif := netif, port := port } len
          { res := o.res, output := [], exchange := some o }

/-- The function `_send` (lines 94-139). -/
def _send (net : NetEnv) (cfg : Config) (T : Transport) (pkt : Pkt) (len : Nat)
    (addr_str port_str : Bytes) : SendResult :=
  let iface := (net.ipv6_addr_split_iface addr_str).1
  let addr_str := (net.ipv6_addr_split_iface addr_str).2
  if iface = -1 then
    if net.gnrc_netif_numof = 1 then
      sendResolved net cfg T pkt len (toUint16 net.gnrc_netif_iter_pid) addr_str port_str
    else
      sendResolved net cfg T pkt len net.SOCK_ADDR_ANY_NETIF addr_str port_str
  else
    if net.gnrc_netif_get_by_pid iface = false then
      rejected "gcoap_cli: interface not valid"
    else
      sendResolved net cfg T pkt len (toUint16 iface) addr_str port_str

/-- The table `method_codes` of line 144. -/
def method_codes : List Bytes := [cstr "get", cstr "post", cstr "put"]

/-- The size `buflen` of the request buffer (line 145). -/
def buflen : Nat := 128

/-- The token of line 149. -/
def token : List Nat := [0xDA, 0xEC]

/-- The search of lines 156-161: `code_pos` starts at `-1` and is set to `i`
for every `i` with `strcmp(argv[1], method_codes[i]) == 0`. -/
def findCode (arg : Bytes) : Int :=
  (List.range method_codes.length).foldl
    (fun code_pos i => if arg = method_codes.getD i [] then (i : Int) else code_pos) (-1)

/-- The effect of `memcpy(buf + off, data, n)` with `n` the length of `data`. -/
def writeAt (buf : Bytes) (off : Nat) (data : Bytes) : Bytes :=
  buf.take off ++ data ++ buf.drop (off + data.length)

/-- The request as the command has built it: the packet, the total length
`len`, and, when a payload was copied, the offset in the buffer of the end of
the copy. -/
structure Built where
  pkt : Pkt
  len : Nat
  copyEnd : Option Nat
deriving DecidableEq, Repr

/-- Lines 171-185: the construction of the request in the buffer.  `stack` is
the packet structure with `hdr` pointing to the buffer (line 166). -/
def buildRequest (lib : CoapLib) (stack : Pkt) (code_pos : Int) (argv : List Bytes) : Built :=
  let built := lib.coap_build_hdr stack lib.COAP_TYPE_CON token 2 (code_pos + 1).toNat 1
  let pkt := lib.coap_pkt_init built.1 buflen built.2
  let pkt := lib.coap_opt_add_string pkt lib.COAP_OPT_URI_PATH (argv.getD 4 []) 47
  if argv.length = 6 then
    let pkt := lib.coap_opt_add_uint pkt lib.COAP_OPT_CONTENT_FORMAT lib.COAP_FORMAT_TEXT
    let fin := lib.coap_opt_finish pkt lib.COAP_OPT_FINISH_PAYLOAD
    let payload_len := strlen (argv.getD 5 []) % UINT16_MOD
    let off := fin.1.payload - fin.1.hdr
    { pkt := { fin.1 with
        payload_len := payload_len
        buf := writeAt fin.1.buf off ((argv.getD 5 []).take payload_len) }
      len := fin.2 + payload_len
      copyEnd := some (off + payload_len) }
  else
    let fin := lib.coap_opt_finish pkt lib.COAP_OPT_FINISH_NONE
    { pkt := fin.1, len := fin.2, copyEnd := none }

/-- The length argument of the last call of `coap_parse` in a trace. -/
def lastParse : List Event → Option Int
  | [] => none
  | Event.parse n :: es => (lastParse es).orElse (fun _ => some n)
  | _ :: es => lastParse es

/-- The packet as the command finds it after `_send`: the exchange, if one was
run, has received into its buffer and `coap_parse`, if it was called, has
rewritten it. -/
def pktAfter (lib : CoapLib) (pkt : Pkt) : Option Outcome → Pkt
  | none => pkt
  | some o =>
      match lastParse o.trace with
      | none => { pkt with buf := o.buf }
      | some n => lib.coap_parse_pkt { pkt with buf := o.buf } n

/-- Lines 196-217: the response line and the payload. -/
def renderResponse (lib : CoapLib) (pkt : Pkt) : List Output :=
  let cls := lib.coap_get_code_class pkt
  let class_str := if cls = lib.COAP_CLASS_SUCCESS then "Success" else "Error"
  let head := Output.response class_str cls (lib.coap_get_code_detail pkt)
  if pkt.payload_len ≠ 0 then
    let format := lib.coap_get_content_type pkt
    let payload := (pkt.buf.drop (pkt.payload - pkt.hdr)).take pkt.payload_len
    if format = lib.COAP_FORMAT_TEXT ∨ format = lib.COAP_FORMAT_LINK
        ∨ cls = lib.COAP_CLASS_CLIENT_FAILURE ∨ cls = lib.COAP_CLASS_SERVER_FAILURE then
      [head, Output.payloadText pkt.payload_len payload]
    else
      [head, Output.payloadSize pkt.payload_len, Output.hexDump payload]
  else
    [head, Output.emptyPayload]

/-- What a call of `nanocoap_cli_cmd` leaves behind: the returned value, what it
printed, the request it built, if any, and the result of `_send`, if called. -/
structure CmdResult where
  ret : Int
  output : List Output
  built : Option Built
  sent : Option SendResult
deriving DecidableEq, Repr

/-- The label `end` (lines 222-225): the usage line and `return 1`. -/
def usageExit (argv : List Bytes) : CmdResult :=
  { ret := 1, output := [Output.usage (argv.getD 0 [])], built := none, sent := none }

/-- The function `nanocoap_cli_cmd` (lines 141-226); `argc` is the length of
`argv`.  `clock n` is the value of call number `n` of `xtimer_now_usec`. -/
def nanocoap_cli_cmd (lib : CoapLib) (net : NetEnv) (cfg : Config) (T : Transport)
    (clock : Nat → Nat) (stack : Pkt) (argv : List Bytes) : CmdResult :=
  if argv.length = 1 then
    usageExit argv
  else
    let code_pos := findCode (argv.getD 1 [])
    if code_pos = -1 then
      usageExit argv
    else if argv.length = 5 ∨ argv.length = 6 then
      let b := buildRequest lib stack code_pos argv
      let elapsed := (clock 1 + (UINT32_MOD - clock 0 % UINT32_MOD)) % UINT32_MOD
      let s := _send net cfg T b.pkt buflen (argv.getD 2 []) (argv.getD 3 [])
      let pkt := pktAfter lib b.pkt s.exchange
      { ret := 0
        output := Output.sending (lib.coap_get_id b.pkt) b.len elapsed ::
          (s.output ++
            (if s.res < 0 then [Output.sendFailed s.res] else renderResponse lib pkt))
        built := some b
        sent := some s }
    else
      usageExit argv

/-! ### Stand-ins for the examples -/

/-- A small stand-in for the nanocoap library, for the examples: a four byte
header followed by the token, the path as one option, a one byte content format
option, the payload marker `0xFF`; a parsed reply is taken to have no payload. -/
def sampleLib : CoapLib :=
  { COAP_TYPE_CON := 0
    COAP_OPT_URI_PATH := 11
    COAP_OPT_CONTENT_FORMAT := 12
    COAP_FORMAT_TEXT := 0
    COAP_FORMAT_LINK := 40
    COAP_OPT_FINISH_PAYLOAD := 1
    COAP_OPT_FINISH_NONE := 0
    COAP_CLASS_SUCCESS := 2
    COAP_CLASS_CLIENT_FAILURE := 4
    COAP_CLASS_SERVER_FAILURE := 5
    coap_build_hdr := fun p type tok tkl code id =>
      ({ p with buf := writeAt p.buf 0 ([64 + type * 16 + tkl, code, id / 256, id % 256] ++ tok) },
        4 + (tkl : Int))
    coap_pkt_init := fun p len hdrlen =>
      { p with payload := p.hdr + hdrlen.toNat, payload_len := len - hdrlen.toNat }
    coap_opt_add_string := fun p optnum str _ =>
      { p with
        buf := writeAt p.buf (p.payload - p.hdr) ((optnum * 16 + (str.length - 1)) :: str.drop 1)
        payload := p.payload + str.length
        payload_len := p.payload_len - str.length }
    coap_opt_add_uint := fun p _ _ =>
      { p with
        buf := writeAt p.buf (p.payload - p.hdr) [16]
        payload := p.payload + 1
        payload_len := p.payload_len - 1 }
    coap_opt_finish := fun p flags =>
      if flags = 1 then
        ({ p with
            buf := writeAt p.buf (p.payload - p.hdr) [255]
            payload := p.payload + 1
            payload_len := p.payload_len - 1 },
          p.payload + 1 - p.hdr)
      else
        ({ p with payload_len := 0 }, p.payload - p.hdr)
    coap_get_id := fun p => p.buf.getD 2 0 * 256 + p.buf.getD 3 0
    coap_get_code_class := fun p => p.buf.getD 1 0 / 32
    coap_get_code_detail := fun p => p.buf.getD 1 0 % 32
    coap_get_content_type := fun _ => 0
    coap_parse_pkt := fun p n => { p with payload := p.hdr + n.toNat, payload_len := 0 } }

/-- A stand-in for the network stack, for the examples: one interface with pid
6, no interface suffix in addresses, the single known address `fe80::1` and the
single known port `5683`. -/
def sampleNet : NetEnv :=
  { AF_INET6 := 10
    SOCK_ADDR_ANY_NETIF := 0
    ipv6_addr_split_iface := fun a => (-1, a)
    gnrc_netif_numof := 1
    gnrc_netif_iter_pid := 6
    gnrc_netif_get_by_pid := fun pid => pid == 6
    ipv6_addr_from_str := fun a =>
      if a = cstr "fe80::1" then some [0xfe, 0x80, 0, 0, 0, 0, 0, 0, 0, 0, 0, 0, 0, 0, 0, 1]
      else none
    ipv6_addr_is_link_local := fun a => a.take 2 == [0xfe, 0x80]
    atoi := fun a => if a = cstr "5683" then 5683 else 0 }

/-- A clock for the examples: the timer advances by 25 microseconds per reading. -/
def sampleClock : Nat → Nat := fun n => 1000 + 25 * n

/-- The buffer and packet structure of the command before it builds a request:
`hdr` points to the zeroed buffer of `buflen` bytes. -/
def sampleStack : Pkt :=
  { hdr := 1000, payload := 0, payload_len := 0, buf := List.replicate buflen 0 }

/-- The command line `coap get fe80::1 5683 /a`. -/
def argvGet : List Bytes :=
  [cstr "coap", cstr "get", cstr "fe80::1", cstr "5683", cstr "/a"]

/-- The command line `coap put fe80::1 5683 /a hi`. -/
def argvPut : List Bytes :=
  [cstr "coap", cstr "put", cstr "fe80::1", cstr "5683", cstr "/a", cstr "hi"]

/-- The command line `coap put fe80::1 5683 /a` followed by 200 letters `a`. -/
def argvLongData : List Bytes :=
  [cstr "coap", cstr "put", cstr "fe80::1", cstr "5683", cstr "/a", List.replicate 200 97]

/-- The command line `coap get nowhere 5683 /a`, whose address does not parse. -/
def argvBadAddr : List Bytes :=
  [cstr "coap", cstr "get", cstr "nowhere", cstr "5683", cstr "/a"]

/-- The command line `coap fetch fe80::1 5683 /a`, whose method is not known. -/
def argvFetch : List Bytes :=
  [cstr "coap", cstr "fetch", cstr "fe80::1", cstr "5683", cstr "/a"]

/-! ## Counting calls in concatenated traces -/

@[simp] theorem sends_append (a b : List Event) : sends (a ++ b) = sends a + sends b := by
  induction a with
  | nil => simp [sends]
  | cons e es ih => cases e <;> simp +arith [sends, ih]

@[simp] theorem recvs_append (a b : List Event) : recvs (a ++ b) = recvs a + recvs b := by
  induction a with
  | nil => simp [recvs]
  | cons e es ih => cases e <;> simp +arith [recvs, ih]

@[simp] theorem closes_append (a b : List Event) : closes (a ++ b) = closes a + closes b := by
  induction a with
  | nil => simp [closes]
  | cons e es ih => cases e <;> simp +arith [closes, ih]

@[simp] theorem recvTimeouts_append (a b : List Event) :
    recvTimeouts (a ++ b) = recvTimeouts a ++ recvTimeouts b := by
  induction a with
  | nil => simp [recvTimeouts]
  | cons e es ih => cases e <;> simp [recvTimeouts, ih]

@[simp] theorem sentFrames_append (a b : List Event) :
    sentFrames (a ++ b) = sentFrames a ++ sentFrames b := by
  induction a with
  | nil => simp [sentFrames]
  | cons e es ih => cases e <;> simp [sentFrames, ih]

@[simp] theorem parses_append (a b : List Event) : parses (a ++ b) = parses a + parses b := by
  induction a with
  | nil => simp [parses]
  | cons e es ih => cases e <;> simp +arith [parses, ih]

/-- A close at the end of a trace does not affect the alternation. -/
theorem alternates_append_close (l : List Event) :
    ∀ b : Bool, alternates b (l ++ [Event.close]) = alternates b l := by
  induction l with
  | nil => intro b; simp [alternates]
  | cons e es ih => intro b; cases e <;> simp [alternates, ih]

/-- A trace that ends with the close has the close as its last call. -/
theorem getLast_cons_append_close (e : Event) (l : List Event) :
    (e :: (l ++ [Event.close])).getLast? = some Event.close := by
  rw [← List.cons_append, List.getLast?_concat]

/-! ## The loop -/

/-- One iteration whose send succeeds and whose receive times out: the loop goes
on with one try less, the next iteration number and the doubled timeout. -/
theorem requestLoop_timeout_step (cfg : Config) (T : Transport) (pdu_len len t k : Nat)
    (res : Int) (timeout : Nat) (buf : Bytes)
    (hs : 0 < T.send k) (hr : T.recv k = -(cfg.ETIMEDOUT : Int)) :
    requestLoop cfg T pdu_len len (t + 1) k res timeout buf =
      { requestLoop cfg T pdu_len len t (k + 1) (-(cfg.ETIMEDOUT : Int))
          (timeout * 2 % UINT32_MOD) (T.recvBuf k buf) with
        trace := Event.send (buf.take pdu_len) pdu_len :: Event.recv len timeout ::
          (requestLoop cfg T pdu_len len t (k + 1) (-(cfg.ETIMEDOUT : Int))
            (timeout * 2 % UINT32_MOD) (T.recvBuf k buf)).trace } := by
  have h1 : ¬ T.send k ≤ 0 := by omega
  have h2 : -(cfg.ETIMEDOUT : Int) ≤ 0 := by omega
  simp only [requestLoop, h1, hr, h2, if_true, if_false]

/-- The first `j` iterations, when each of them sends successfully and times
out on receive: they make `j` sends and `j` receives and no close, and the loop
continues from iteration `k + j` with `j` tries less; `res` then holds
`-ETIMEDOUT` unless `j = 0`. -/
theorem requestLoop_silent (cfg : Config) (T : Transport) (pdu_len len t : Nat) :
    ∀ (j k : Nat) (res : Int) (timeout : Nat) (buf : Bytes),
      (∀ i, i < j → 0 < T.send (k + i)) →
      (∀ i, i < j → T.recv (k + i) = -(cfg.ETIMEDOUT : Int)) →
      ∃ (pre : List Event) (timeout' : Nat) (buf' : Bytes),
        sends pre = j ∧ recvs pre = j ∧ closes pre = 0 ∧
        requestLoop cfg T pdu_len len (j + t) k res timeout buf =
          { requestLoop cfg T pdu_len len t (k + j)
              (if j = 0 then res else -(cfg.ETIMEDOUT : Int)) timeout' buf' with
            trace := pre ++
              (requestLoop cfg T pdu_len len t (k + j)
                (if j = 0 then res else -(cfg.ETIMEDOUT : Int)) timeout' buf').trace } := by
  intro j
  induction j with
  | zero =>
      intro k res timeout buf _ _
      exact ⟨[], timeout, buf, rfl, rfl, rfl, by simp⟩
  | succ j ih =>
      intro k res timeout buf hs hr
      have hs0 : 0 < T.send k := by simpa using hs 0 (by omega)
      have hr0 : T.recv k = -(cfg.ETIMEDOUT : Int) := by simpa using hr 0 (by omega)
      obtain ⟨pre, timeout', buf', h1, h2, h3, h5⟩ :=
        ih (k + 1) (-(cfg.ETIMEDOUT : Int)) (timeout * 2 % UINT32_MOD) (T.recvBuf k buf)
          (fun i hi => by have := hs (i + 1) (by omega); rwa [Nat.add_assoc, Nat.add_comm 1 i])
          (fun i hi => by have := hr (i + 1) (by omega); rwa [Nat.add_assoc, Nat.add_comm 1 i])
      refine ⟨Event.send (buf.take pdu_len) pdu_len :: Event.recv len timeout :: pre,
        timeout', buf', ?_, ?_, ?_, ?_⟩
      · simp [sends, recvs, h1]
      · simp [sends, recvs, h2]
      · simp [closes, h3]
      · have e1 : j + 1 + t = (j + t) + 1 := by omega
        have e2 : k + (j + 1) = k + 1 + j := by omega
        rw [e1, requestLoop_timeout_step cfg T pdu_len len (j + t) k res timeout buf hs0 hr0,
          h5, e2]
        simp

/-- An iteration whose send does not succeed leaves the loop by `goto out`. -/
theorem requestLoop_send_fails (cfg : Config) (T : Transport) (pdu_len len t k : Nat)
    (res : Int) (timeout : Nat) (buf : Bytes) (hs : T.send k ≤ 0) :
    requestLoop cfg T pdu_len len (t + 1) k res timeout buf =
      { res := T.send k, tries := t, viaGoto := true, buf := buf,
        trace := [Event.send (buf.take pdu_len) pdu_len] } := by
  simp only [requestLoop, hs, if_true]

/-- An iteration whose receive fails with something else than a timeout leaves
the loop by `break`. -/
theorem requestLoop_recv_fails (cfg : Config) (T : Transport) (pdu_len len t k : Nat)
    (res : Int) (timeout : Nat) (buf : Bytes) (hs : 0 < T.send k)
    (hr : T.recv k ≤ 0) (hne : T.recv k ≠ -(cfg.ETIMEDOUT : Int)) :
    requestLoop cfg T pdu_len len (t + 1) k res timeout buf =
      { res := T.recv k, tries := t, viaGoto := false, buf := T.recvBuf k buf,
        trace := [Event.send (buf.take pdu_len) pdu_len, Event.recv len timeout] } := by
  have h1 : ¬ T.send k ≤ 0 := by omega
  simp only [requestLoop, h1, hr, hne, if_true, if_false]

/-- An iteration whose receive delivers data hands it to the decoder and leaves
the loop by `break`. -/
theorem requestLoop_data (cfg : Config) (T : Transport) (pdu_len len t k : Nat)
    (res : Int) (timeout : Nat) (buf : Bytes) (hs : 0 < T.send k) (hr : 0 < T.recv k) :
    requestLoop cfg T pdu_len len (t + 1) k res timeout buf =
      { res := if T.parse k < 0 then -(cfg.EBADMSG : Int) else T.recv k,
        tries := t, viaGoto := false, buf := T.recvBuf k buf,
        trace := [Event.send (buf.take pdu_len) pdu_len, Event.recv len timeout,
          Event.parse (T.recv k)] } := by
  have h1 : ¬ T.send k ≤ 0 := by omega
  have h2 : ¬ T.recv k ≤ 0 := by omega
  simp only [requestLoop, h1, h2, if_false]

/-- Doubling a reduced value and reducing again is reducing the doubled value. -/
theorem double_mod (b k : Nat) :
    b * 2 ^ k % UINT32_MOD * 2 % UINT32_MOD = b * 2 ^ (k + 1) % UINT32_MOD := by
  rw [Nat.mul_mod (b * 2 ^ k % UINT32_MOD), Nat.mod_mod, ← Nat.mul_mod, Nat.pow_succ,
    Nat.mul_assoc]

/-- Timeouts handed to the receives of the loop: if iteration `k` is entered
with `b * 2 ^ k` reduced to 32 bits, the receive number `i` of the remaining
ones is called with `b * 2 ^ (k + i)` reduced to 32 bits. -/
theorem requestLoop_recvTimeouts (cfg : Config) (T : Transport) (pdu_len len b : Nat) :
    ∀ (t k : Nat) (res : Int) (buf : Bytes),
      recvTimeouts (requestLoop cfg T pdu_len len t k res (b * 2 ^ k % UINT32_MOD) buf).trace =
        (List.range (recvs
            (requestLoop cfg T pdu_len len t k res (b * 2 ^ k % UINT32_MOD) buf).trace)).map
          (fun i => b * 2 ^ (k + i) % UINT32_MOD) := by
  intro t
  induction t with
  | zero => intro k res buf; simp [requestLoop, recvTimeouts, recvs]
  | succ t ih =>
      intro k res buf
      by_cases hs : T.send k ≤ 0
      · simp [requestLoop, hs, recvTimeouts, recvs]
      · by_cases hr : T.recv k ≤ 0
        · by_cases ht : T.recv k = -(cfg.ETIMEDOUT : Int)
          · have hs' : 0 < T.send k := by omega
            rw [requestLoop_timeout_step cfg T pdu_len len t k res _ buf hs' ht, double_mod]
            simp only [recvTimeouts, recvs, ih (k + 1), List.range_succ_eq_map, List.map_cons,
              List.map_map, Nat.add_zero]
            congr 1
            apply List.map_congr_left
            intro i _
            simp only [Function.comp, Nat.succ_eq_add_one]
            congr 3
            omega
          · simp [requestLoop, hs, hr, ht, recvTimeouts, recvs, List.range_succ]
        · simp [requestLoop, hs, hr, recvTimeouts, recvs, List.range_succ]

/-- The loop never closes the socket. -/
theorem requestLoop_closes (cfg : Config) (T : Transport) (pdu_len len : Nat) :
    ∀ (t k : Nat) (res : Int) (timeout : Nat) (buf : Bytes),
      closes (requestLoop cfg T pdu_len len t k res timeout buf).trace = 0 := by
  intro t
  induction t with
  | zero => intro k res timeout buf; simp [requestLoop, closes]
  | succ t ih =>
      intro k res timeout buf
      by_cases hs : T.send k ≤ 0
      · simp [requestLoop, hs, closes]
      · by_cases hr : T.recv k ≤ 0
        · by_cases ht : T.recv k = -(cfg.ETIMEDOUT : Int)
          · rw [requestLoop_timeout_step cfg T pdu_len len t k res timeout buf (by omega) ht]
            simp [closes, ih]
          · simp [requestLoop, hs, hr, ht, closes]
        · simp [requestLoop, hs, hr, closes]

/-- Frames sent by the loop: when a receive that times out leaves the buffer
untouched, every send of the loop carries the first `pdu_len` bytes that the
buffer held on entry. -/
theorem requestLoop_sentFrames (cfg : Config) (T : Transport) (pdu_len len : Nat)
    (hquiet : ∀ k b, T.recv k = -(cfg.ETIMEDOUT : Int) → T.recvBuf k b = b) :
    ∀ (t k : Nat) (res : Int) (timeout : Nat) (buf : Bytes),
      sentFrames (requestLoop cfg T pdu_len len t k res timeout buf).trace =
        List.replicate (sends (requestLoop cfg T pdu_len len t k res timeout buf).trace)
          (buf.take pdu_len, pdu_len) := by
  intro t
  induction t with
  | zero => intro k res timeout buf; simp [requestLoop, sentFrames, sends]
  | succ t ih =>
      intro k res timeout buf
      by_cases hs : T.send k ≤ 0
      · simp [requestLoop, hs, sentFrames, sends]
      · by_cases hr : T.recv k ≤ 0
        · by_cases ht : T.recv k = -(cfg.ETIMEDOUT : Int)
          · rw [requestLoop_timeout_step cfg T pdu_len len t k res timeout buf (by omega) ht]
            simp [sentFrames, sends, ih, hquiet k buf ht, List.replicate_succ]
          · simp [requestLoop, hs, hr, ht, sentFrames, sends]
        · simp [requestLoop, hs, hr, sentFrames, sends]

/-- The loop makes at most as many sends and as many receives as it has tries. -/
theorem requestLoop_calls_le (cfg : Config) (T : Transport) (pdu_len len : Nat) :
    ∀ (t k : Nat) (res : Int) (timeout : Nat) (buf : Bytes),
      sends (requestLoop cfg T pdu_len len t k res timeout buf).trace ≤ t ∧
      recvs (requestLoop cfg T pdu_len len t k res timeout buf).trace ≤ t := by
  intro t
  induction t with
  | zero => intro k res timeout buf; simp [requestLoop, sends, recvs]
  | succ t ih =>
      intro k res timeout buf
      by_cases hs : T.send k ≤ 0
      · simp [requestLoop, hs, sends, recvs]
      · by_cases hr : T.recv k ≤ 0
        · by_cases ht : T.recv k = -(cfg.ETIMEDOUT : Int)
          · rw [requestLoop_timeout_step cfg T pdu_len len t k res timeout buf (by omega) ht]
            have h := ih (k + 1) (-(cfg.ETIMEDOUT : Int)) (timeout * 2 % UINT32_MOD)
              (T.recvBuf k buf)
            simp only [sends, recvs]
            omega
          · simp [requestLoop, hs, hr, ht, sends, recvs]
        · simp [requestLoop, hs, hr, sends, recvs]

/-- In the loop, sends and receives alternate, starting with a send. -/
theorem requestLoop_alternates (cfg : Config) (T : Transport) (pdu_len len : Nat) :
    ∀ (t k : Nat) (res : Int) (timeout : Nat) (buf : Bytes),
      alternates true (requestLoop cfg T pdu_len len t k res timeout buf).trace = true := by
  intro t
  induction t with
  | zero => intro k res timeout buf; simp [requestLoop, alternates]
  | succ t ih =>
      intro k res timeout buf
      by_cases hs : T.send k ≤ 0
      · simp [requestLoop, hs, alternates]
      · by_cases hr : T.recv k ≤ 0
        · by_cases ht : T.recv k = -(cfg.ETIMEDOUT : Int)
          · rw [requestLoop_timeout_step cfg T pdu_len len t k res timeout buf (by omega) ht]
            simp [alternates, ih]
          · simp [requestLoop, hs, hr, ht, alternates]
        · simp [requestLoop, hs, hr, alternates]

/-- In the loop, a send that is not the first one follows a receive that
returned `-ETIMEDOUT`: if more than `j + 1` sends are made from iteration `k`
on, the receive of iteration `k + j` timed out. -/
theorem requestLoop_resend_after_timeout (cfg : Config) (T : Transport)
    (pdu_len len : Nat) :
    ∀ (t k : Nat) (res : Int) (timeout : Nat) (buf : Bytes) (j : Nat),
      j + 1 < sends (requestLoop cfg T pdu_len len t k res timeout buf).trace →
      T.recv (k + j) = -(cfg.ETIMEDOUT : Int) := by
  intro t
  induction t with
  | zero => intro k res timeout buf j; simp [requestLoop, sends]
  | succ t ih =>
      intro k res timeout buf j
      by_cases hs : T.send k ≤ 0
      · simp [requestLoop, hs, sends]
      · by_cases hr : T.recv k ≤ 0
        · by_cases ht : T.recv k = -(cfg.ETIMEDOUT : Int)
          · rw [requestLoop_timeout_step cfg T pdu_len len t k res timeout buf (by omega) ht]
            simp only [sends]
            intro hj
            cases j with
            | zero => simpa using ht
            | succ i =>
                have h := ih (k + 1) (-(cfg.ETIMEDOUT : Int)) (timeout * 2 % UINT32_MOD)
                  (T.recvBuf k buf) i (by omega)
                rwa [Nat.add_assoc, Nat.add_comm 1 i] at h
          · simp [requestLoop, hs, hr, ht, sends]
        · simp [requestLoop, hs, hr, sends]

/-- Calls made when the socket could be opened: create, the loop, close. -/
theorem nanocoap_request_trace_open (cfg : Config) (T : Transport) (pkt : Pkt)
    (loc : Option Endpoint) (remote : Endpoint) (len : Nat) (h : 0 ≤ T.create) :
    (nanocoap_request cfg T pkt loc remote len).trace =
      Event.create loc
          (if remote.port = 0 then { remote with port := cfg.COAP_PORT } else remote) ::
        ((entryLoop cfg T pkt len).trace ++ [Event.close]) := by
  have h1 : ¬ T.create < 0 := by omega
  simp only [nanocoap_request, entryLoop, h1, if_false]

/-- Value returned when the socket could be opened: `-ETIMEDOUT` if the loop
was not left by `goto out` and `tries` is 0, the loop's `res` otherwise. -/
theorem nanocoap_request_res_open (cfg : Config) (T : Transport) (pkt : Pkt)
    (loc : Option Endpoint) (remote : Endpoint) (len : Nat) (h : 0 ≤ T.create) :
    (nanocoap_request cfg T pkt loc remote len).res =
      if (entryLoop cfg T pkt len).viaGoto = false ∧ (entryLoop cfg T pkt len).tries = 0
      then -(cfg.ETIMEDOUT : Int) else (entryLoop cfg T pkt len).res := by
  have h1 : ¬ T.create < 0 := by omega
  simp only [nanocoap_request, entryLoop, h1, if_false]
  simp

/-- The loop entered by `nanocoap_request` after `j` silent iterations, with
`t` tries left. -/
theorem entryLoop_silent (cfg : Config) (T : Transport) (pkt : Pkt) (len j t : Nat)
    (hjt : j + t = cfg.COAP_MAX_RETRANSMIT + 1)
    (hs : ∀ i, i < j → 0 < T.send i)
    (hr : ∀ i, i < j → T.recv i = -(cfg.ETIMEDOUT : Int)) :
    ∃ (pre : List Event) (timeout' : Nat) (buf' : Bytes),
      sends pre = j ∧ recvs pre = j ∧ closes pre = 0 ∧
      entryLoop cfg T pkt len =
        { requestLoop cfg T ((pkt.payload - pkt.hdr) + pkt.payload_len) len t j
            (if j = 0 then T.create else -(cfg.ETIMEDOUT : Int)) timeout' buf' with
          trace := pre ++
            (requestLoop cfg T ((pkt.payload - pkt.hdr) + pkt.payload_len) len t j
              (if j = 0 then T.create else -(cfg.ETIMEDOUT : Int)) timeout' buf').trace } := by
  have := requestLoop_silent cfg T ((pkt.payload - pkt.hdr) + pkt.payload_len) len t j 0
    T.create (cfg.COAP_ACK_TIMEOUT * 1000000 % UINT32_MOD) pkt.buf
    (fun i hi => by simpa using hs i hi) (fun i hi => by simpa using hr i hi)
  simpa [entryLoop, ← hjt] using this

/-- Data arriving in iteration `j` (after `j` silent iterations): `j + 1` sends,
`j + 1` receives, one close at the end, and the returned value is the decoder's
verdict, unless `j` is the last permitted iteration, where it is `-ETIMEDOUT`. -/
theorem nanocoap_request_data_at (cfg : Config) (T : Transport) (pkt : Pkt)
    (loc : Option Endpoint) (remote : Endpoint) (len j : Nat)
    (hj : j ≤ cfg.COAP_MAX_RETRANSMIT) (hopen : 0 ≤ T.create)
    (hsend : ∀ i, i ≤ j → 0 < T.send i)
    (hsilent : ∀ i, i < j → T.recv i = -(cfg.ETIMEDOUT : Int))
    (hrecv : 0 < T.recv j) :
    sends (nanocoap_request cfg T pkt loc remote len).trace = j + 1 ∧
    recvs (nanocoap_request cfg T pkt loc remote len).trace = j + 1 ∧
    closes (nanocoap_request cfg T pkt loc remote len).trace = 1 ∧
    (nanocoap_request cfg T pkt loc remote len).res =
      if j = cfg.COAP_MAX_RETRANSMIT then -(cfg.ETIMEDOUT : Int)
      else if T.parse j < 0 then -(cfg.EBADMSG : Int) else T.recv j := by
  obtain ⟨pre, timeout', buf', h1, h2, h3, h4⟩ :=
    entryLoop_silent cfg T pkt len j (cfg.COAP_MAX_RETRANSMIT - j + 1) (by omega)
      (fun i hi => hsend i (by omega)) hsilent
  rw [requestLoop_data cfg T _ len _ j _ timeout' buf' (hsend j (le_refl j)) hrecv] at h4
  rw [nanocoap_request_trace_open cfg T pkt loc remote len hopen,
    nanocoap_request_res_open cfg T pkt loc remote len hopen, h4]
  refine ⟨?_, ?_, ?_, ?_⟩
  · simp [sends, h1]
  · simp [recvs, h2]
  · simp [closes, h3]
  · by_cases hN : j = cfg.COAP_MAX_RETRANSMIT
    · simp [hN]
    · have : ¬ ((cfg.COAP_MAX_RETRANSMIT : Int) - (j : Int) = 0) := by omega
      simp [hN, Nat.cast_sub hj, this]

/-- A receive failing in iteration `j` with something else than a timeout:
`j + 1` sends, `j + 1` receives, one close, and the returned value is the
receive's result, unless `j` is the last permitted iteration, where it is
`-ETIMEDOUT`. -/
theorem nanocoap_request_recv_error_at (cfg : Config) (T : Transport) (pkt : Pkt)
    (loc : Option Endpoint) (remote : Endpoint) (len j : Nat)
    (hj : j ≤ cfg.COAP_MAX_RETRANSMIT) (hopen : 0 ≤ T.create)
    (hsend : ∀ i, i ≤ j → 0 < T.send i)
    (hsilent : ∀ i, i < j → T.recv i = -(cfg.ETIMEDOUT : Int))
    (hrecv : T.recv j ≤ 0) (hne : T.recv j ≠ -(cfg.ETIMEDOUT : Int)) :
    sends (nanocoap_request cfg T pkt loc remote len).trace = j + 1 ∧
    recvs (nanocoap_request cfg T pkt loc remote len).trace = j + 1 ∧
    closes (nanocoap_request cfg T pkt loc remote len).trace = 1 ∧
    (nanocoap_request cfg T pkt loc remote len).res =
      if j = cfg.COAP_MAX_RETRANSMIT then -(cfg.ETIMEDOUT : Int) else T.recv j := by
  obtain ⟨pre, timeout', buf', h1, h2, h3, h4⟩ :=
    entryLoop_silent cfg T pkt len j (cfg.COAP_MAX_RETRANSMIT - j + 1) (by omega)
      (fun i hi => hsend i (by omega)) hsilent
  rw [requestLoop_recv_fails cfg T _ len _ j _ timeout' buf' (hsend j (le_refl j)) hrecv hne]
    at h4
  rw [nanocoap_request_trace_open cfg T pkt loc remote len hopen,
    nanocoap_request_res_open cfg T pkt loc remote len hopen, h4]
  refine ⟨?_, ?_, ?_, ?_⟩
  · simp [sends, h1]
  · simp [recvs, h2]
  · simp [closes, h3]
  · by_cases hN : j = cfg.COAP_MAX_RETRANSMIT
    · simp [hN]
    · have : ¬ ((cfg.COAP_MAX_RETRANSMIT : Int) - (j : Int) = 0) := by omega
      simp [hN, Nat.cast_sub hj, this]

/-- A send failing in iteration `j`: `j + 1` sends, `j` receives, the close as
the last call, and the send's result is returned. -/
theorem nanocoap_request_send_error_at (cfg : Config) (T : Transport) (pkt : Pkt)
    (loc : Option Endpoint) (remote : Endpoint) (len j : Nat)
    (hj : j ≤ cfg.COAP_MAX_RETRANSMIT) (hopen : 0 ≤ T.create)
    (hsend : ∀ i, i < j → 0 < T.send i)
    (hsilent : ∀ i, i < j → T.recv i = -(cfg.ETIMEDOUT : Int))
    (hfail : T.send j ≤ 0) :
    sends (nanocoap_request cfg T pkt loc remote len).trace = j + 1 ∧
    recvs (nanocoap_request cfg T pkt loc remote len).trace = j ∧
    closes (nanocoap_request cfg T pkt loc remote len).trace = 1 ∧
    (nanocoap_request cfg T pkt loc remote len).trace.getLast? = some Event.close ∧
    (nanocoap_request cfg T pkt loc remote len).res = T.send j := by
  obtain ⟨pre, timeout', buf', h1, h2, h3, h4⟩ :=
    entryLoop_silent cfg T pkt len j (cfg.COAP_MAX_RETRANSMIT - j + 1) (by omega)
      hsend hsilent
  rw [requestLoop_send_fails cfg T _ len _ j _ timeout' buf' hfail] at h4
  rw [nanocoap_request_trace_open cfg T pkt loc remote len hopen,
    nanocoap_request_res_open cfg T pkt loc remote len hopen, h4]
  refine ⟨?_, ?_, ?_, ?_, ?_⟩
  · simp [sends, h1]
  · simp [sends, recvs, h2]
  · simp [closes, h3]
  · exact getLast_cons_append_close _ _
  · simp

/-- Timeouts handed to the receives of an exchange: receive number `i` (counted
from 0) gets `COAP_ACK_TIMEOUT * 1000000 * 2 ^ i` reduced to 32 bits. -/
theorem nanocoap_request_recvTimeouts (cfg : Config) (T : Transport)
    (pkt : Pkt) (loc : Option Endpoint) (remote : Endpoint) (len : Nat) :
    recvTimeouts (nanocoap_request cfg T pkt loc remote len).trace =
      (List.range (recvs (nanocoap_request cfg T pkt loc remote len).trace)).map
        (fun i => cfg.COAP_ACK_TIMEOUT * 1000000 * 2 ^ i % UINT32_MOD) := by
  by_cases hopen : T.create < 0
  · simp [nanocoap_request, hopen, recvTimeouts, recvs]
  · have h := requestLoop_recvTimeouts cfg T ((pkt.payload - pkt.hdr) + pkt.payload_len) len
      (cfg.COAP_ACK_TIMEOUT * 1000000) (cfg.COAP_MAX_RETRANSMIT + 1) 0 T.create pkt.buf
    simp only [Nat.pow_zero, Nat.mul_one, Nat.zero_add] at h
    rw [nanocoap_request_trace_open cfg T pkt loc remote len (by omega)]
    simpa [recvTimeouts, recvs, entryLoop] using h

/-- An exchange makes at most `COAP_MAX_RETRANSMIT + 1` sends and receives. -/
theorem nanocoap_request_calls_le (cfg : Config) (T : Transport)
    (pkt : Pkt) (loc : Option Endpoint) (remote : Endpoint) (len : Nat) :
    sends (nanocoap_request cfg T pkt loc remote len).trace ≤ cfg.COAP_MAX_RETRANSMIT + 1 ∧
    recvs (nanocoap_request cfg T pkt loc remote len).trace ≤ cfg.COAP_MAX_RETRANSMIT + 1 := by
  by_cases hopen : T.create < 0
  · simp [nanocoap_request, hopen, sends, recvs]
  · rw [nanocoap_request_trace_open cfg T pkt loc remote len (by omega)]
    have h := requestLoop_calls_le cfg T ((pkt.payload - pkt.hdr) + pkt.payload_len) len
      (cfg.COAP_MAX_RETRANSMIT + 1) 0 T.create
      (cfg.COAP_ACK_TIMEOUT * 1000000 % UINT32_MOD) pkt.buf
    simpa [sends, recvs, entryLoop] using h

/-! ## Sums of doubled timeouts -/

/-- The unreduced sum `b + 2 b + ... + 2 ^ n b` in closed form, one term further. -/
theorem geom_succ (b n : Nat) : b * (2 ^ (n + 1) - 1) = b * (2 ^ n - 1) + b * 2 ^ n := by
  have h1 : 1 ≤ 2 ^ n := Nat.one_le_two_pow
  have h2 : 2 ^ (n + 1) - 1 = (2 ^ n - 1) + 2 ^ n := by
    rw [Nat.pow_succ]; omega
  rw [h2, Nat.mul_add]

/-- The closed form grows with the number of terms. -/
theorem geom_mono (b : Nat) {n m : Nat} (h : n ≤ m) : b * (2 ^ n - 1) ≤ b * (2 ^ m - 1) :=
  Nat.mul_le_mul_left b (Nat.sub_le_sub_right (Nat.pow_le_pow_right (by decide) h) 1)

/-- The closed form grows strictly when `b` is positive. -/
theorem geom_strict (b : Nat) (hb : 0 < b) {n m : Nat} (h : n < m) :
    b * (2 ^ n - 1) < b * (2 ^ m - 1) := by
  have h1 : b * (2 ^ (n + 1) - 1) ≤ b * (2 ^ m - 1) := geom_mono b h
  have h2 : 0 < b * 2 ^ n := Nat.mul_pos hb (Nat.two_pow_pos n)
  rw [geom_succ] at h1
  omega

/-- The sum of the first `n + 1` reduced timeouts, split at the last one. -/
theorem wrapped_sum_succ (b n : Nat) :
    ((List.range (n + 1)).map (fun i => b * 2 ^ i % UINT32_MOD)).sum =
      ((List.range n).map (fun i => b * 2 ^ i % UINT32_MOD)).sum + b * 2 ^ n % UINT32_MOD := by
  simp [List.range_succ]

/-- The sum of the first `n` reduced timeouts is at most the unreduced sum. -/
theorem wrapped_sum_le (b n : Nat) :
    ((List.range n).map (fun i => b * 2 ^ i % UINT32_MOD)).sum ≤ b * (2 ^ n - 1) := by
  induction n with
  | zero => simp
  | succ n ih =>
      rw [wrapped_sum_succ, geom_succ]
      have := Nat.mod_le (b * 2 ^ n) UINT32_MOD
      omega

/-- When the largest of them fits in 32 bits, no timeout is reduced. -/
theorem wrapped_sum_eq_of_fits (b : Nat) :
    ∀ n, b * 2 ^ n < UINT32_MOD →
      ((List.range (n + 1)).map (fun i => b * 2 ^ i % UINT32_MOD)).sum =
        b * (2 ^ (n + 1) - 1) := by
  intro n
  induction n with
  | zero =>
      intro h
      have hb : b < UINT32_MOD := by simpa using h
      simp [List.range_succ, Nat.mod_eq_of_lt hb]
  | succ n ih =>
      intro h
      have hle : b * 2 ^ n ≤ b * 2 ^ (n + 1) :=
        Nat.mul_le_mul_left b (Nat.pow_le_pow_right (by decide) (Nat.le_succ n))
      rw [wrapped_sum_succ, ih (by omega), geom_succ b (n + 1), Nat.mod_eq_of_lt h]

/-- When the sum of `n + 1` reduced timeouts reaches the unreduced sum, the
largest one fits in 32 bits. -/
theorem fits_of_wrapped_sum_eq (b n : Nat)
    (h : ((List.range (n + 1)).map (fun i => b * 2 ^ i % UINT32_MOD)).sum =
      b * (2 ^ (n + 1) - 1)) : b * 2 ^ n < UINT32_MOD := by
  rw [wrapped_sum_succ, geom_succ] at h
  have h1 := wrapped_sum_le b n
  have h2 := Nat.mod_le (b * 2 ^ n) UINT32_MOD
  have h3 : b * 2 ^ n % UINT32_MOD < UINT32_MOD := Nat.mod_lt _ (by decide)
  omega

/-! ## The command: helper lemmas -/

/-- The search for the method finds the position of each entry of the table. -/
theorem findCode_of_entry (i : Nat) (hi : i < 3) : findCode (method_codes.getD i []) = i := by
  interval_cases i <;> decide

/-- The search for the method leaves `-1` for a string that is not in the table. -/
theorem findCode_of_other (arg : Bytes) (h : arg ∉ method_codes) : findCode arg = -1 := by
  simp only [method_codes, List.mem_cons, List.mem_singleton, List.not_mem_nil, or_false,
    not_or] at h
  obtain ⟨h0, h1, h2⟩ := h
  simp [findCode, method_codes, List.range_succ, h0, h1, h2]

/-- A string that the search finds is in the table. -/
theorem mem_of_findCode (arg : Bytes) (h : findCode arg ≠ -1) : arg ∈ method_codes := by
  by_contra hmem
  exact h (findCode_of_other arg hmem)

/-- The results of `rejected`: 0, one `puts`, no exchange. -/
theorem rejected_spec (msg : String) :
    (rejected msg).res = 0 ∧ (rejected msg).exchange = none ∧
    (rejected msg).output.any Output.isSendFailed = false ∧
    (rejected msg).output.any Output.isResponse = false := by
  simp [rejected, Output.isSendFailed, Output.isResponse]

/-- What `sendResolved` prints is never the failure diagnostic nor a response
line, and when it runs no exchange it returns 0. -/
theorem sendResolved_spec (net : NetEnv) (cfg : Config) (T : Transport) (pkt : Pkt)
    (len netif : Nat) (addr_str port_str : Bytes) :
    (sendResolved net cfg T pkt len netif addr_str port_str).output.any
      Output.isSendFailed = false ∧
    (sendResolved net cfg T pkt len netif addr_str port_str).output.any
      Output.isResponse = false ∧
    ((sendResolved net cfg T pkt len netif addr_str port_str).exchange = none →
      (sendResolved net cfg T pkt len netif addr_str port_str).res = 0) := by
  unfold sendResolved
  split
  · simp [rejected, Output.isSendFailed, Output.isResponse]
  · split
    · simp [rejected, Output.isSendFailed, Output.isResponse]
    · by_cases hp : toUint16 (net.atoi port_str) = 0 <;>
        simp [hp, rejected, Output.isSendFailed, Output.isResponse]

/-- What `_send` prints is never the failure diagnostic nor a response line,
and when it runs no exchange it returns 0. -/
theorem _send_spec (net : NetEnv) (cfg : Config) (T : Transport) (pkt : Pkt)
    (len : Nat) (addr_str port_str : Bytes) :
    (_send net cfg T pkt len addr_str port_str).output.any Output.isSendFailed = false ∧
    (_send net cfg T pkt len addr_str port_str).output.any Output.isResponse = false ∧
    ((_send net cfg T pkt len addr_str port_str).exchange = none →
      (_send net cfg T pkt len addr_str port_str).res = 0) := by
  unfold _send
  simp only
  split
  · split <;> exact sendResolved_spec _ _ _ _ _ _ _ _
  · split
    · simp [rejected, Output.isSendFailed, Output.isResponse]
    · exact sendResolved_spec _ _ _ _ _ _ _ _

/-- The rendering of a response starts with the response line and holds no
failure diagnostic. -/
theorem renderResponse_spec (lib : CoapLib) (pkt : Pkt) :
    (renderResponse lib pkt).any Output.isSendFailed = false ∧
    (renderResponse lib pkt).any Output.isResponse = true := by
  unfold renderResponse
  simp only
  split
  · split <;> simp [Output.isSendFailed, Output.isResponse]
  · simp [Output.isSendFailed, Output.isResponse]

/-- The command with a known method and 5 or 6 arguments: it builds the request,
calls `_send` and returns 0. -/
theorem nanocoap_cli_cmd_of_request (lib : CoapLib) (net : NetEnv) (cfg : Config)
    (T : Transport) (clock : Nat → Nat) (stack : Pkt) (argv : List Bytes)
    (hargc : argv.length = 5 ∨ argv.length = 6)
    (hmethod : findCode (argv.getD 1 []) ≠ -1) :
    nanocoap_cli_cmd lib net cfg T clock stack argv =
      { ret := 0
        output :=
          Output.sending
              (lib.coap_get_id (buildRequest lib stack (findCode (argv.getD 1 [])) argv).pkt)
              (buildRequest lib stack (findCode (argv.getD 1 [])) argv).len
              ((clock 1 + (UINT32_MOD - clock 0 % UINT32_MOD)) % UINT32_MOD) ::
            ((_send net cfg T (buildRequest lib stack (findCode (argv.getD 1 [])) argv).pkt
                buflen (argv.getD 2 []) (argv.getD 3 [])).output ++
              (if (_send net cfg T (buildRequest lib stack (findCode (argv.getD 1 [])) argv).pkt
                  buflen (argv.getD 2 []) (argv.getD 3 [])).res < 0
                then [Output.sendFailed
                  (_send net cfg T (buildRequest lib stack (findCode (argv.getD 1 [])) argv).pkt
                    buflen (argv.getD 2 []) (argv.getD 3 [])).res]
                else renderResponse lib
                  (pktAfter lib (buildRequest lib stack (findCode (argv.getD 1 [])) argv).pkt
                    (_send net cfg T (buildRequest lib stack (findCode (argv.getD 1 [])) argv).pkt
                      buflen (argv.getD 2 []) (argv.getD 3 [])).exchange)))
        built := some (buildRequest lib stack (findCode (argv.getD 1 [])) argv)
        sent := some (_send net cfg T (buildRequest lib stack (findCode (argv.getD 1 [])) argv).pkt
          buflen (argv.getD 2 []) (argv.getD 3 [])) } := by
  have h1 : argv.length ≠ 1 := by omega
  simp only [nanocoap_cli_cmd, h1, hmethod, hargc, if_true, if_false]

/-- The command without a request: whenever it does not have both a known
method and 5 or 6 arguments, it goes to the label `end`. -/
theorem nanocoap_cli_cmd_of_usage (lib : CoapLib) (net : NetEnv) (cfg : Config)
    (T : Transport) (clock : Nat → Nat) (stack : Pkt) (argv : List Bytes)
    (h : argv.length = 1 ∨ findCode (argv.getD 1 []) = -1) :
    nanocoap_cli_cmd lib net cfg T clock stack argv = usageExit argv := by
  by_cases h1 : argv.length = 1
  · simp only [nanocoap_cli_cmd, h1, if_true]
  · have h2 : findCode (argv.getD 1 []) = -1 := by
      rcases h with h | h
      · exact absurd h h1
      · exact h
    simp only [nanocoap_cli_cmd, h1, h2, if_true, if_false]

/-- The length and the end of the payload copy of a request built from six
arguments, when the data is shorter than 65536 bytes. -/
theorem buildRequest_with_payload (lib : CoapLib) (stack : Pkt) (code_pos : Int)
    (argv : List Bytes) (hargc : argv.length = 6)
    (hfit : strlen (argv.getD 5 []) < UINT16_MOD) :
    strlen (argv.getD 5 []) ≤ (buildRequest lib stack code_pos argv).len ∧
    ∃ e, (buildRequest lib stack code_pos argv).copyEnd = some e ∧
      strlen (argv.getD 5 []) ≤ e := by
  unfold buildRequest
  simp only [hargc, if_true, Nat.mod_eq_of_lt hfit]
  exact ⟨Nat.le_add_left _ _, _, rfl, Nat.le_add_left _ _⟩

/-! ## Outcomes of the exchange -/

/-- C1 (the code departs from it on the last attempt): when the socket opens,
every send succeeds, the first `COAP_MAX_RETRANSMIT` receives time out and the
receive of the last permitted attempt delivers bytes that `coap_parse` accepts,
`nanocoap_request` makes `COAP_MAX_RETRANSMIT + 1` sends and as many receives but
returns `-ETIMEDOUT`, not the positive length that was received. -/
theorem response_on_last_attempt_returns_ETIMEDOUT (cfg : Config) (T : Transport)
    (pkt : Pkt) (loc : Option Endpoint) (remote : Endpoint) (len : Nat)
    (hopen : 0 ≤ T.create)
    (hsend : ∀ i, i ≤ cfg.COAP_MAX_RETRANSMIT → 0 < T.send i)
    (hsilent : ∀ i, i < cfg.COAP_MAX_RETRANSMIT → T.recv i = -(cfg.ETIMEDOUT : Int))
    (hrecv : 0 < T.recv cfg.COAP_MAX_RETRANSMIT)
    (_hparse : 0 ≤ T.parse cfg.COAP_MAX_RETRANSMIT) :
    sends (nanocoap_request cfg T pkt loc remote len).trace = cfg.COAP_MAX_RETRANSMIT + 1 ∧
    recvs (nanocoap_request cfg T pkt loc remote len).trace = cfg.COAP_MAX_RETRANSMIT + 1 ∧
    (nanocoap_request cfg T pkt loc remote len).res = -(cfg.ETIMEDOUT : Int) ∧
    (nanocoap_request cfg T pkt loc remote len).res ≠ T.recv cfg.COAP_MAX_RETRANSMIT := by
  obtain ⟨h1, h2, _, h4⟩ := nanocoap_request_data_at cfg T pkt loc remote len
    cfg.COAP_MAX_RETRANSMIT (le_refl _) hopen hsend hsilent hrecv
  rw [if_pos rfl] at h4
  exact ⟨h1, h2, h4, by rw [h4]; omega⟩

/-- C1 at the stock constants: four timeouts, then a 12 byte reply that decodes,
and the caller gets `-116`. -/
theorem response_on_last_attempt_returns_ETIMEDOUT_witness :
    0 < (replyAfter riotConfig 4 12 [0x62, 0x45] 0).recv 4 ∧
    0 ≤ (replyAfter riotConfig 4 12 [0x62, 0x45] 0).parse 4 ∧
    sends (nanocoap_request riotConfig (replyAfter riotConfig 4 12 [0x62, 0x45] 0)
      samplePkt none sampleRemote 16).trace = 5 ∧
    recvs (nanocoap_request riotConfig (replyAfter riotConfig 4 12 [0x62, 0x45] 0)
      samplePkt none sampleRemote 16).trace = 5 ∧
    (nanocoap_request riotConfig (replyAfter riotConfig 4 12 [0x62, 0x45] 0)
      samplePkt none sampleRemote 16).res = -116 ∧
    (nanocoap_request riotConfig (replyAfter riotConfig 4 12 [0x62, 0x45] 0)
      samplePkt none sampleRemote 16).res ≠ 12 :=
  ⟨by decide, by decide,
    response_on_last_attempt_returns_ETIMEDOUT riotConfig
      (replyAfter riotConfig 4 12 [0x62, 0x45] 0) samplePkt none sampleRemote 16
      (by decide) (fun _ _ => by simp [replyAfter])
      (fun i hi => by
        have hi4 : i < 4 := hi
        simp [replyAfter, hi4, riotConfig])
      (by decide) (by decide)⟩

/-- C2: when the socket opens, every send succeeds and every receive times out,
`nanocoap_request` makes exactly `COAP_MAX_RETRANSMIT + 1` sends and as many
receives, and returns `-ETIMEDOUT`. -/
theorem silent_peer_exhausts_retries (cfg : Config) (T : Transport)
    (pkt : Pkt) (loc : Option Endpoint) (remote : Endpoint) (len : Nat)
    (hopen : 0 ≤ T.create)
    (hsend : ∀ i, i ≤ cfg.COAP_MAX_RETRANSMIT → 0 < T.send i)
    (hsilent : ∀ i, i ≤ cfg.COAP_MAX_RETRANSMIT → T.recv i = -(cfg.ETIMEDOUT : Int)) :
    sends (nanocoap_request cfg T pkt loc remote len).trace = cfg.COAP_MAX_RETRANSMIT + 1 ∧
    recvs (nanocoap_request cfg T pkt loc remote len).trace = cfg.COAP_MAX_RETRANSMIT + 1 ∧
    (nanocoap_request cfg T pkt loc remote len).res = -(cfg.ETIMEDOUT : Int) := by
  obtain ⟨pre, timeout', buf', h1, h2, _, h4⟩ :=
    entryLoop_silent cfg T pkt len (cfg.COAP_MAX_RETRANSMIT + 1) 0 (by omega)
      (fun i hi => hsend i (by omega)) (fun i hi => hsilent i (by omega))
  rw [nanocoap_request_trace_open cfg T pkt loc remote len hopen,
    nanocoap_request_res_open cfg T pkt loc remote len hopen, h4]
  refine ⟨?_, ?_, ?_⟩
  · simp [sends, requestLoop, h1]
  · simp [recvs, requestLoop, h2]
  · simp [requestLoop]

/-- C2 at a 1 s base timeout and 4 retransmissions: 5 sends, 5 receives with
timeouts of 1, 2, 4, 8 and 16 seconds, and `-ETIMEDOUT`. -/
theorem silent_peer_exhausts_retries_witness :
    (sends (nanocoap_request oneSecondConfig (silentPeer oneSecondConfig)
      samplePkt none sampleRemote 16).trace = 5 ∧
    recvs (nanocoap_request oneSecondConfig (silentPeer oneSecondConfig)
      samplePkt none sampleRemote 16).trace = 5 ∧
    (nanocoap_request oneSecondConfig (silentPeer oneSecondConfig)
      samplePkt none sampleRemote 16).res = -116) ∧
    recvTimeouts (nanocoap_request oneSecondConfig (silentPeer oneSecondConfig)
      samplePkt none sampleRemote 16).trace =
      [1000000, 2000000, 4000000, 8000000, 16000000] :=
  ⟨silent_peer_exhausts_retries oneSecondConfig (silentPeer oneSecondConfig)
      samplePkt none sampleRemote 16 (by decide) (fun _ _ => by simp [silentPeer])
      (fun _ _ => rfl),
    by decide⟩

/-- C3 as stated fails once the doubling leaves 32 bits: with a 2 s base
timeout and 12 retransmissions against a silent peer, 13 receives are made and
the timeout of the 13th is 3897032704 microseconds, not 2000000 * 2 ^ 12. -/
theorem thirteenth_timeout_wraps :
    recvs (nanocoap_request patientConfig (silentPeer patientConfig)
      samplePkt none sampleRemote 16).trace = patientConfig.COAP_MAX_RETRANSMIT + 1 ∧
    (recvTimeouts (nanocoap_request patientConfig (silentPeer patientConfig)
      samplePkt none sampleRemote 16).trace)[12]? = some 3897032704 ∧
    (recvTimeouts (nanocoap_request patientConfig (silentPeer patientConfig)
      samplePkt none sampleRemote 16).trace)[12]? ≠
        some (patientConfig.COAP_ACK_TIMEOUT * 1000000 * 2 ^ 12) := by
  decide

/-- C3, amended: in every exchange the timeout handed to the receive call
number `i` (counted from 0) is `COAP_ACK_TIMEOUT * 1000000 * 2 ^ i` reduced
modulo `2 ^ 32`, the width of the `uint32_t` that holds it. -/
theorem recv_timeouts_double_modulo_uint32 (cfg : Config) (T : Transport)
    (pkt : Pkt) (loc : Option Endpoint) (remote : Endpoint) (len : Nat) :
    recvTimeouts (nanocoap_request cfg T pkt loc remote len).trace =
      (List.range (recvs (nanocoap_request cfg T pkt loc remote len).trace)).map
        (fun i => cfg.COAP_ACK_TIMEOUT * 1000000 * 2 ^ i % UINT32_MOD) := by
  by_cases hopen : T.create < 0
  · simp [nanocoap_request, hopen, recvTimeouts, recvs]
  · have h := requestLoop_recvTimeouts cfg T ((pkt.payload - pkt.hdr) + pkt.payload_len) len
      (cfg.COAP_ACK_TIMEOUT * 1000000) (cfg.COAP_MAX_RETRANSMIT + 1) 0 T.create pkt.buf
    simp only [Nat.pow_zero, Nat.mul_one, Nat.zero_add] at h
    rw [nanocoap_request_trace_open cfg T pkt loc remote len (by omega)]
    simpa [recvTimeouts, recvs, entryLoop] using h

/-- C4 (the code departs from it on the last attempt): when the first
`COAP_MAX_RETRANSMIT` receives time out and the receive of the last permitted
attempt fails with an error other than a timeout, `nanocoap_request` stops after
`COAP_MAX_RETRANSMIT + 1` sends and receives but returns `-ETIMEDOUT`, not the
error of the receive. -/
theorem recv_error_on_last_attempt_returns_ETIMEDOUT (cfg : Config) (T : Transport)
    (pkt : Pkt) (loc : Option Endpoint) (remote : Endpoint) (len : Nat)
    (hopen : 0 ≤ T.create)
    (hsend : ∀ i, i ≤ cfg.COAP_MAX_RETRANSMIT → 0 < T.send i)
    (hsilent : ∀ i, i < cfg.COAP_MAX_RETRANSMIT → T.recv i = -(cfg.ETIMEDOUT : Int))
    (hrecv : T.recv cfg.COAP_MAX_RETRANSMIT < 0)
    (hne : T.recv cfg.COAP_MAX_RETRANSMIT ≠ -(cfg.ETIMEDOUT : Int)) :
    sends (nanocoap_request cfg T pkt loc remote len).trace = cfg.COAP_MAX_RETRANSMIT + 1 ∧
    recvs (nanocoap_request cfg T pkt loc remote len).trace = cfg.COAP_MAX_RETRANSMIT + 1 ∧
    (nanocoap_request cfg T pkt loc remote len).res = -(cfg.ETIMEDOUT : Int) ∧
    (nanocoap_request cfg T pkt loc remote len).res ≠ T.recv cfg.COAP_MAX_RETRANSMIT := by
  obtain ⟨h1, h2, _, h4⟩ := nanocoap_request_recv_error_at cfg T pkt loc remote len
    cfg.COAP_MAX_RETRANSMIT (le_refl _) hopen hsend hsilent (by omega) hne
  rw [if_pos rfl] at h4
  exact ⟨h1, h2, h4, by rw [h4]; exact fun h => hne h.symm⟩

/-- C4 at the stock constants: four timeouts, then the fifth receive fails with
`-12`, and the caller gets `-116`. -/
theorem recv_error_on_last_attempt_returns_ETIMEDOUT_witness :
    (replyAfter riotConfig 4 (-12) [] 0).recv 4 = -12 ∧
    sends (nanocoap_request riotConfig (replyAfter riotConfig 4 (-12) [] 0)
      samplePkt none sampleRemote 16).trace = 5 ∧
    recvs (nanocoap_request riotConfig (replyAfter riotConfig 4 (-12) [] 0)
      samplePkt none sampleRemote 16).trace = 5 ∧
    (nanocoap_request riotConfig (replyAfter riotConfig 4 (-12) [] 0)
      samplePkt none sampleRemote 16).res = -116 ∧
    (nanocoap_request riotConfig (replyAfter riotConfig 4 (-12) [] 0)
      samplePkt none sampleRemote 16).res ≠ -12 :=
  ⟨by decide,
    recv_error_on_last_attempt_returns_ETIMEDOUT riotConfig
      (replyAfter riotConfig 4 (-12) [] 0) samplePkt none sampleRemote 16
      (by decide) (fun _ _ => by simp [replyAfter])
      (fun i hi => by
        have hi4 : i < 4 := hi
        simp [replyAfter, hi4, riotConfig])
      (by decide) (by decide)⟩

/-- C5 (the code departs from it on the last attempt): when the receive of the
last permitted attempt delivers bytes that `coap_parse` rejects, no further send
or receive is made, but `nanocoap_request` returns `-ETIMEDOUT`, not `-EBADMSG`. -/
theorem malformed_on_last_attempt_returns_ETIMEDOUT (cfg : Config) (T : Transport)
    (pkt : Pkt) (loc : Option Endpoint) (remote : Endpoint) (len : Nat)
    (hcodes : cfg.EBADMSG ≠ cfg.ETIMEDOUT)
    (hopen : 0 ≤ T.create)
    (hsend : ∀ i, i ≤ cfg.COAP_MAX_RETRANSMIT → 0 < T.send i)
    (hsilent : ∀ i, i < cfg.COAP_MAX_RETRANSMIT → T.recv i = -(cfg.ETIMEDOUT : Int))
    (hrecv : 0 < T.recv cfg.COAP_MAX_RETRANSMIT)
    (_hparse : T.parse cfg.COAP_MAX_RETRANSMIT < 0) :
    sends (nanocoap_request cfg T pkt loc remote len).trace = cfg.COAP_MAX_RETRANSMIT + 1 ∧
    recvs (nanocoap_request cfg T pkt loc remote len).trace = cfg.COAP_MAX_RETRANSMIT + 1 ∧
    (nanocoap_request cfg T pkt loc remote len).res = -(cfg.ETIMEDOUT : Int) ∧
    (nanocoap_request cfg T pkt loc remote len).res ≠ -(cfg.EBADMSG : Int) := by
  obtain ⟨h1, h2, _, h4⟩ := nanocoap_request_data_at cfg T pkt loc remote len
    cfg.COAP_MAX_RETRANSMIT (le_refl _) hopen hsend hsilent hrecv
  rw [if_pos rfl] at h4
  exact ⟨h1, h2, h4, by rw [h4]; omega⟩

/-- C5 at the stock constants: four timeouts, then a 12 byte reply that the
decoder rejects, and the caller gets `-116` instead of `-77`. -/
theorem malformed_on_last_attempt_returns_ETIMEDOUT_witness :
    (replyAfter riotConfig 4 12 [0xff, 0xff] (-1)).parse 4 < 0 ∧
    sends (nanocoap_request riotConfig (replyAfter riotConfig 4 12 [0xff, 0xff] (-1))
      samplePkt none sampleRemote 16).trace = 5 ∧
    recvs (nanocoap_request riotConfig (replyAfter riotConfig 4 12 [0xff, 0xff] (-1))
      samplePkt none sampleRemote 16).trace = 5 ∧
    (nanocoap_request riotConfig (replyAfter riotConfig 4 12 [0xff, 0xff] (-1))
      samplePkt none sampleRemote 16).res = -116 ∧
    (nanocoap_request riotConfig (replyAfter riotConfig 4 12 [0xff, 0xff] (-1))
      samplePkt none sampleRemote 16).res ≠ -77 :=
  ⟨by decide,
    malformed_on_last_attempt_returns_ETIMEDOUT riotConfig
      (replyAfter riotConfig 4 12 [0xff, 0xff] (-1)) samplePkt none sampleRemote 16
      (by decide) (by decide) (fun _ _ => by simp [replyAfter])
      (fun i hi => by
        have hi4 : i < 4 := hi
        simp [replyAfter, hi4, riotConfig])
      (by decide) (by decide)⟩

/-- C6: when the first `j` sends succeed, the first `j` receives time out and
the send of iteration `j` (within the retry budget) fails with a negative
result, `nanocoap_request` makes `j + 1` sends and `j` receives, closes the
socket as its last call, and returns the result of the failed send. -/
theorem send_failure_aborts_and_closes (cfg : Config) (T : Transport)
    (pkt : Pkt) (loc : Option Endpoint) (remote : Endpoint) (len j : Nat)
    (hj : j ≤ cfg.COAP_MAX_RETRANSMIT) (hopen : 0 ≤ T.create)
    (hsend : ∀ i, i < j → 0 < T.send i)
    (hsilent : ∀ i, i < j → T.recv i = -(cfg.ETIMEDOUT : Int))
    (hfail : T.send j < 0) :
    sends (nanocoap_request cfg T pkt loc remote len).trace = j + 1 ∧
    recvs (nanocoap_request cfg T pkt loc remote len).trace = j ∧
    closes (nanocoap_request cfg T pkt loc remote len).trace = 1 ∧
    (nanocoap_request cfg T pkt loc remote len).trace.getLast? = some Event.close ∧
    (nanocoap_request cfg T pkt loc remote len).res = T.send j :=
  nanocoap_request_send_error_at cfg T pkt loc remote len j hj hopen hsend hsilent
    (by omega)

/-- C6 at the stock constants: two timeouts, then the third send fails with
`-12`; three sends, two receives, the close, and `-12` is returned. -/
theorem send_failure_aborts_and_closes_witness :
    (sendFailsAt riotConfig 2 (-12)).send 2 = -12 ∧
    sends (nanocoap_request riotConfig (sendFailsAt riotConfig 2 (-12))
      samplePkt none sampleRemote 16).trace = 3 ∧
    recvs (nanocoap_request riotConfig (sendFailsAt riotConfig 2 (-12))
      samplePkt none sampleRemote 16).trace = 2 ∧
    closes (nanocoap_request riotConfig (sendFailsAt riotConfig 2 (-12))
      samplePkt none sampleRemote 16).trace = 1 ∧
    (nanocoap_request riotConfig (sendFailsAt riotConfig 2 (-12))
      samplePkt none sampleRemote 16).trace.getLast? = some Event.close ∧
    (nanocoap_request riotConfig (sendFailsAt riotConfig 2 (-12))
      samplePkt none sampleRemote 16).res = -12 :=
  ⟨by decide,
    send_failure_aborts_and_closes riotConfig (sendFailsAt riotConfig 2 (-12))
      samplePkt none sampleRemote 16 2 (by decide) (by decide)
      (fun i hi => by
        have : i ≠ 2 := by omega
        simp [sendFailsAt, silentPeer, this])
      (fun _ _ => rfl) (by decide)⟩

/-- C7: when `sock_udp_create` returns a negative value, `nanocoap_request`
returns that value at once: the create is its only call, so it makes no send
and no receive. -/
theorem create_failure_returns_at_once (cfg : Config) (T : Transport)
    (pkt : Pkt) (loc : Option Endpoint) (remote : Endpoint) (len : Nat)
    (hfail : T.create < 0) :
    (nanocoap_request cfg T pkt loc remote len).res = T.create ∧
    sends (nanocoap_request cfg T pkt loc remote len).trace = 0 ∧
    recvs (nanocoap_request cfg T pkt loc remote len).trace = 0 ∧
    (nanocoap_request cfg T pkt loc remote len).trace.length = 1 := by
  simp [nanocoap_request, hfail, sends, recvs]

/-- C7 at 12 retransmissions, with a create that returns `-12`. -/
theorem create_failure_returns_at_once_witness :
    (createReturns patientConfig (-12)).create < 0 ∧
    (nanocoap_request patientConfig (createReturns patientConfig (-12))
      samplePkt none sampleRemote 16).res = -12 ∧
    sends (nanocoap_request patientConfig (createReturns patientConfig (-12))
      samplePkt none sampleRemote 16).trace = 0 ∧
    recvs (nanocoap_request patientConfig (createReturns patientConfig (-12))
      samplePkt none sampleRemote 16).trace = 0 ∧
    (nanocoap_request patientConfig (createReturns patientConfig (-12))
      samplePkt none sampleRemote 16).trace.length = 1 :=
  ⟨by decide,
    create_failure_returns_at_once patientConfig (createReturns patientConfig (-12))
      samplePkt none sampleRemote 16 (by decide)⟩

/-- C8: when `sock_udp_create` succeeds, `nanocoap_request` calls
`sock_udp_close` exactly once and that call is its last one, whatever the sends,
the receives and the decoder return; when `sock_udp_create` fails, it does not
call `sock_udp_close`. -/
theorem close_exactly_once_iff_opened (cfg : Config) (T : Transport)
    (pkt : Pkt) (loc : Option Endpoint) (remote : Endpoint) (len : Nat) :
    (0 ≤ T.create →
      closes (nanocoap_request cfg T pkt loc remote len).trace = 1 ∧
      (nanocoap_request cfg T pkt loc remote len).trace.getLast? = some Event.close) ∧
    (T.create < 0 → closes (nanocoap_request cfg T pkt loc remote len).trace = 0) := by
  constructor
  · intro hopen
    rw [nanocoap_request_trace_open cfg T pkt loc remote len hopen]
    refine ⟨?_, getLast_cons_append_close _ _⟩
    simp [closes, entryLoop, requestLoop_closes]
  · intro hfail
    simp [nanocoap_request, hfail, closes]

/-- C8 on a run that ends by a failed send and on a run whose create fails. -/
theorem close_exactly_once_iff_opened_witness :
    (closes (nanocoap_request riotConfig (sendFailsAt riotConfig 1 (-12))
        samplePkt none sampleRemote 16).trace = 1 ∧
      (nanocoap_request riotConfig (sendFailsAt riotConfig 1 (-12))
        samplePkt none sampleRemote 16).trace.getLast? = some Event.close) ∧
    closes (nanocoap_request riotConfig (createReturns riotConfig (-12))
      samplePkt none sampleRemote 16).trace = 0 :=
  ⟨(close_exactly_once_iff_opened riotConfig (sendFailsAt riotConfig 1 (-12))
      samplePkt none sampleRemote 16).1 (by decide),
    (close_exactly_once_iff_opened riotConfig (createReturns riotConfig (-12))
      samplePkt none sampleRemote 16).2 (by decide)⟩

/-- C9: when a receive that times out writes nothing into the buffer, every
call of `sock_udp_send` within one exchange is given the length
`pdu_len = (payload - hdr) + payload_len` and the same bytes, the first
`pdu_len` bytes of the request buffer. -/
theorem retransmissions_are_identical (cfg : Config) (T : Transport)
    (pkt : Pkt) (loc : Option Endpoint) (remote : Endpoint) (len : Nat)
    (hquiet : ∀ k b, T.recv k = -(cfg.ETIMEDOUT : Int) → T.recvBuf k b = b) :
    sentFrames (nanocoap_request cfg T pkt loc remote len).trace =
      List.replicate (sends (nanocoap_request cfg T pkt loc remote len).trace)
        (pkt.buf.take ((pkt.payload - pkt.hdr) + pkt.payload_len),
          (pkt.payload - pkt.hdr) + pkt.payload_len) := by
  by_cases hopen : T.create < 0
  · simp [nanocoap_request, hopen, sentFrames, sends]
  · rw [nanocoap_request_trace_open cfg T pkt loc remote len (by omega)]
    simp [sentFrames, sends, entryLoop, requestLoop_sentFrames cfg T _ len hquiet]

/-- C9 at the stock constants: two timeouts and then a reply that overwrites the
buffer; the three sends carry the same seven bytes. -/
theorem retransmissions_are_identical_witness :
    sentFrames (nanocoap_request riotConfig (replyAfter riotConfig 2 12 [0x62, 0x45] 0)
      samplePkt none sampleRemote 16).trace =
      List.replicate 3 ([0x42, 0x01, 0x00, 0x01, 0xDA, 0xEC, 0xB1], 7) :=
  retransmissions_are_identical riotConfig (replyAfter riotConfig 2 12 [0x62, 0x45] 0)
    samplePkt none sampleRemote 16
    (fun k b h => by
      by_cases hk : k < 2
      · simp [replyAfter, hk]
      · simp [replyAfter, hk, riotConfig] at h)

/-- C10: the first call of `nanocoap_request` is `sock_udp_create`, and the
remote endpoint it is given has the port `COAP_PORT` when the caller's port is 0
and the caller's port otherwise, with the caller's family, address and
interface. -/
theorem default_port_substituted (cfg : Config) (T : Transport)
    (pkt : Pkt) (loc : Option Endpoint) (remote : Endpoint) (len : Nat) :
    (nanocoap_request cfg T pkt loc remote len).trace.head? =
      some (Event.create loc
        { family := remote.family, addr := remote.addr, netif := remote.netif,
          port := if remote.port = 0 then cfg.COAP_PORT else remote.port }) := by
  by_cases hopen : T.create < 0 <;> by_cases hport : remote.port = 0 <;>
    simp [nanocoap_request, hopen, hport]

/-- C11 (the code departs from it when a transport call returns 0): with at
least one retransmission configured, when the socket opens, the first send
succeeds and the first receive returns 0, `nanocoap_request` stops after one
send and one receive, never calls `coap_parse`, and returns 0, a value that is
not negative although no response was decoded. -/
theorem zero_receive_is_returned_as_zero (cfg : Config) (T : Transport)
    (pkt : Pkt) (loc : Option Endpoint) (remote : Endpoint) (len : Nat)
    (hN : 0 < cfg.COAP_MAX_RETRANSMIT) (hE : cfg.ETIMEDOUT ≠ 0)
    (hopen : 0 ≤ T.create) (hsend : 0 < T.send 0) (hrecv : T.recv 0 = 0) :
    (nanocoap_request cfg T pkt loc remote len).res = 0 ∧
    sends (nanocoap_request cfg T pkt loc remote len).trace = 1 ∧
    recvs (nanocoap_request cfg T pkt loc remote len).trace = 1 ∧
    parses (nanocoap_request cfg T pkt loc remote len).trace = 0 := by
  have hne : T.recv 0 ≠ -(cfg.ETIMEDOUT : Int) := by omega
  have hloop := requestLoop_recv_fails cfg T ((pkt.payload - pkt.hdr) + pkt.payload_len) len
    cfg.COAP_MAX_RETRANSMIT 0 T.create (cfg.COAP_ACK_TIMEOUT * 1000000 % UINT32_MOD) pkt.buf
    hsend (by omega) hne
  rw [nanocoap_request_trace_open cfg T pkt loc remote len hopen,
    nanocoap_request_res_open cfg T pkt loc remote len hopen]
  unfold entryLoop
  rw [hloop]
  have hN0 : ¬ ((cfg.COAP_MAX_RETRANSMIT : Int) = 0) := by omega
  simp [sends, recvs, parses, hN0, hrecv]

/-- C11 at the stock constants: the peer answers the first request with an
empty datagram, and the caller gets 0. -/
theorem zero_receive_is_returned_as_zero_witness :
    (replyAfter riotConfig 0 0 [] 0).recv 0 = 0 ∧
    (nanocoap_request riotConfig (replyAfter riotConfig 0 0 [] 0)
      samplePkt none sampleRemote 16).res = 0 ∧
    sends (nanocoap_request riotConfig (replyAfter riotConfig 0 0 [] 0)
      samplePkt none sampleRemote 16).trace = 1 ∧
    recvs (nanocoap_request riotConfig (replyAfter riotConfig 0 0 [] 0)
      samplePkt none sampleRemote 16).trace = 1 ∧
    parses (nanocoap_request riotConfig (replyAfter riotConfig 0 0 [] 0)
      samplePkt none sampleRemote 16).trace = 0 :=
  ⟨by decide,
    zero_receive_is_returned_as_zero riotConfig (replyAfter riotConfig 0 0 [] 0)
      samplePkt none sampleRemote 16 (by decide) (by decide) (by decide) (by decide)
      (by decide)⟩

/-- C12: in every exchange the sends and the receives strictly alternate,
starting with a send, and every send after the first one directly follows a
receive that returned `-ETIMEDOUT`: whenever more than `j + 1` sends are made,
receive number `j` (counted from 0), the one before send number `j + 1`, timed
out. -/
theorem resend_only_after_timeout (cfg : Config) (T : Transport)
    (pkt : Pkt) (loc : Option Endpoint) (remote : Endpoint) (len : Nat) :
    alternates true (nanocoap_request cfg T pkt loc remote len).trace = true ∧
    ∀ j, j + 1 < sends (nanocoap_request cfg T pkt loc remote len).trace →
      T.recv j = -(cfg.ETIMEDOUT : Int) := by
  by_cases hopen : T.create < 0
  · simp [nanocoap_request, hopen, sends, alternates]
  · rw [nanocoap_request_trace_open cfg T pkt loc remote len (by omega)]
    constructor
    · simp [alternates, alternates_append_close, entryLoop, requestLoop_alternates]
    · intro j hj
      have h := requestLoop_resend_after_timeout cfg T
        ((pkt.payload - pkt.hdr) + pkt.payload_len) len (cfg.COAP_MAX_RETRANSMIT + 1) 0
        T.create (cfg.COAP_ACK_TIMEOUT * 1000000 % UINT32_MOD) pkt.buf j
        (by simpa [sends, entryLoop] using hj)
      simpa using h

/-- C12 at the stock constants: two timeouts and then a reply; three sends
alternate with three receives and the first two receives timed out. -/
theorem resend_only_after_timeout_witness :
    sends (nanocoap_request riotConfig (replyAfter riotConfig 2 12 [0x62, 0x45] 0)
      samplePkt none sampleRemote 16).trace = 3 ∧
    alternates true (nanocoap_request riotConfig (replyAfter riotConfig 2 12 [0x62, 0x45] 0)
      samplePkt none sampleRemote 16).trace = true ∧
    (replyAfter riotConfig 2 12 [0x62, 0x45] 0).recv 1 = -116 :=
  ⟨by decide,
    (resend_only_after_timeout riotConfig (replyAfter riotConfig 2 12 [0x62, 0x45] 0)
      samplePkt none sampleRemote 16).1,
    (resend_only_after_timeout riotConfig (replyAfter riotConfig 2 12 [0x62, 0x45] 0)
      samplePkt none sampleRemote 16).2 1 (by decide)⟩

/-- C13 as stated fails in both directions of its equality clause.  At the
stock constants, when four receives time out and the fifth delivers a reply,
the timeouts add up to the bound although the last receive did not time out;
with 12 retransmissions against a silent peer all 13 receives time out and the
timeouts, reduced to 32 bits, add up to less than the bound. -/
theorem timeout_sum_equality_not_tied_to_timeouts :
    ((recvTimeouts (nanocoap_request riotConfig (replyAfter riotConfig 4 12 [0x62, 0x45] 0)
        samplePkt none sampleRemote 16).trace).sum =
          riotConfig.COAP_ACK_TIMEOUT * 1000000 * (2 ^ (riotConfig.COAP_MAX_RETRANSMIT + 1) - 1) ∧
      (replyAfter riotConfig 4 12 [0x62, 0x45] 0).recv 4 ≠ -(riotConfig.ETIMEDOUT : Int)) ∧
    (recvs (nanocoap_request patientConfig (silentPeer patientConfig)
        samplePkt none sampleRemote 16).trace = patientConfig.COAP_MAX_RETRANSMIT + 1 ∧
      (recvTimeouts (nanocoap_request patientConfig (silentPeer patientConfig)
        samplePkt none sampleRemote 16).trace).sum <
          patientConfig.COAP_ACK_TIMEOUT * 1000000 *
            (2 ^ (patientConfig.COAP_MAX_RETRANSMIT + 1) - 1)) := by
  decide

/-- C13, amended: in every exchange the timeouts handed to the receives add up
to at most `COAP_ACK_TIMEOUT * 1000000 * (2 ^ (COAP_MAX_RETRANSMIT + 1) - 1)`;
for a positive `COAP_ACK_TIMEOUT` the sum equals this bound exactly when
`COAP_MAX_RETRANSMIT + 1` receives are made and the largest timeout,
`COAP_ACK_TIMEOUT * 1000000 * 2 ^ COAP_MAX_RETRANSMIT`, fits in 32 bits. -/
theorem timeout_sum_bounded (cfg : Config) (T : Transport)
    (pkt : Pkt) (loc : Option Endpoint) (remote : Endpoint) (len : Nat) :
    (recvTimeouts (nanocoap_request cfg T pkt loc remote len).trace).sum ≤
      cfg.COAP_ACK_TIMEOUT * 1000000 * (2 ^ (cfg.COAP_MAX_RETRANSMIT + 1) - 1) ∧
    (0 < cfg.COAP_ACK_TIMEOUT →
      ((recvTimeouts (nanocoap_request cfg T pkt loc remote len).trace).sum =
          cfg.COAP_ACK_TIMEOUT * 1000000 * (2 ^ (cfg.COAP_MAX_RETRANSMIT + 1) - 1) ↔
        recvs (nanocoap_request cfg T pkt loc remote len).trace =
            cfg.COAP_MAX_RETRANSMIT + 1 ∧
          cfg.COAP_ACK_TIMEOUT * 1000000 * 2 ^ cfg.COAP_MAX_RETRANSMIT < UINT32_MOD)) := by
  have hle := (nanocoap_request_calls_le cfg T pkt loc remote len).2
  have hsum := wrapped_sum_le (cfg.COAP_ACK_TIMEOUT * 1000000)
    (recvs (nanocoap_request cfg T pkt loc remote len).trace)
  have hmono := geom_mono (cfg.COAP_ACK_TIMEOUT * 1000000) hle
  rw [nanocoap_request_recvTimeouts]
  refine ⟨by omega, fun hpos => ⟨fun heq => ?_, fun h => ?_⟩⟩
  · have hn : recvs (nanocoap_request cfg T pkt loc remote len).trace =
        cfg.COAP_MAX_RETRANSMIT + 1 := by
      by_contra hne
      have := geom_strict (cfg.COAP_ACK_TIMEOUT * 1000000) (by omega)
        (show recvs (nanocoap_request cfg T pkt loc remote len).trace <
          cfg.COAP_MAX_RETRANSMIT + 1 by omega)
      omega
    rw [hn] at heq
    exact ⟨hn, fits_of_wrapped_sum_eq _ _ heq⟩
  · rw [h.1]
    exact wrapped_sum_eq_of_fits _ _ h.2

/-- C13 at the stock constants: against a silent peer the five timeouts add up
to 62 seconds, the bound. -/
theorem timeout_sum_bounded_witness :
    (recvTimeouts (nanocoap_request riotConfig (silentPeer riotConfig)
      samplePkt none sampleRemote 16).trace).sum = 62000000 :=
  ((timeout_sum_bounded riotConfig (silentPeer riotConfig)
      samplePkt none sampleRemote 16).2 (by decide)).2 ⟨by decide, by decide⟩

/-- C14: for every `COAP_MAX_RETRANSMIT` and every script of results of the
transport and the decoder, `nanocoap_request` returns after at most
`COAP_MAX_RETRANSMIT + 1` sends and at most `COAP_MAX_RETRANSMIT + 1` receives. -/
theorem sends_and_receives_within_budget (cfg : Config) (T : Transport)
    (pkt : Pkt) (loc : Option Endpoint) (remote : Endpoint) (len : Nat) :
    sends (nanocoap_request cfg T pkt loc remote len).trace ≤ cfg.COAP_MAX_RETRANSMIT + 1 ∧
    recvs (nanocoap_request cfg T pkt loc remote len).trace ≤ cfg.COAP_MAX_RETRANSMIT + 1 :=
  nanocoap_request_calls_le cfg T pkt loc remote len

/-- C16 (the code departs from it for long data): when the command is given a
known method and a sixth argument of more than `buflen = 128` bytes (and less
than 65536), the total length `len` of the request it builds exceeds `buflen`,
and the copy of the payload ends beyond the end of the buffer. -/
theorem long_payload_leaves_buffer (lib : CoapLib) (net : NetEnv) (cfg : Config)
    (T : Transport) (clock : Nat → Nat) (stack : Pkt) (argv : List Bytes)
    (hargc : argv.length = 6) (hmethod : findCode (argv.getD 1 []) ≠ -1)
    (hlong : buflen < strlen (argv.getD 5 []))
    (hfit : strlen (argv.getD 5 []) < UINT16_MOD) :
    ∃ b, (nanocoap_cli_cmd lib net cfg T clock stack argv).built = some b ∧
      buflen < b.len ∧ ∃ e, b.copyEnd = some e ∧ buflen < e := by
  rw [nanocoap_cli_cmd_of_request lib net cfg T clock stack argv (Or.inr hargc) hmethod]
  obtain ⟨h1, e, h2, h3⟩ :=
    buildRequest_with_payload lib stack (findCode (argv.getD 1 [])) argv hargc hfit
  exact ⟨_, rfl, by omega, e, h2, by omega⟩

/-- C16 on `coap put fe80::1 5683 /a` with 200 bytes of data: the request is
210 bytes long and the copy ends at offset 210 of the 128 byte buffer. -/
theorem long_payload_leaves_buffer_witness :
    strlen (argvLongData.getD 5 []) = 200 ∧
    ∃ b, (nanocoap_cli_cmd sampleLib sampleNet riotConfig (silentPeer riotConfig)
        sampleClock sampleStack argvLongData).built = some b ∧
      buflen < b.len ∧ ∃ e, b.copyEnd = some e ∧ buflen < e :=
  ⟨List.length_replicate 200 97,
    long_payload_leaves_buffer sampleLib sampleNet riotConfig (silentPeer riotConfig)
      sampleClock sampleStack argvLongData (by decide) (by decide)
      (by
        have h : strlen (argvLongData.getD 5 []) = 200 := List.length_replicate 200 97
        rw [h]; decide)
      (by
        have h : strlen (argvLongData.getD 5 []) = 200 := List.length_replicate 200 97
        rw [h]; decide)⟩

/-- C17 (the code departs from it when `_send` rejects its arguments): whenever
the command calls `_send` and `_send` returns without running an exchange (it
rejected the interface, the address or the port), `_send` returns 0 and the
command prints a response line and no `msg send failed` diagnostic. -/
theorem rejected_arguments_print_a_response (lib : CoapLib) (net : NetEnv) (cfg : Config)
    (T : Transport) (clock : Nat → Nat) (stack : Pkt) (argv : List Bytes)
    (s : SendResult)
    (hsent : (nanocoap_cli_cmd lib net cfg T clock stack argv).sent = some s)
    (hnone : s.exchange = none) :
    s.res = 0 ∧
    (nanocoap_cli_cmd lib net cfg T clock stack argv).output.any Output.isSendFailed = false ∧
    (nanocoap_cli_cmd lib net cfg T clock stack argv).output.any Output.isResponse = true := by
  by_cases h1 : argv.length = 1
  · simp only [nanocoap_cli_cmd, h1, if_true, usageExit] at hsent
    cases hsent
  · by_cases h2 : findCode (argv.getD 1 []) = -1
    · simp only [nanocoap_cli_cmd, h1, h2, if_true, if_false, usageExit] at hsent
      cases hsent
    · by_cases h3 : argv.length = 5 ∨ argv.length = 6
      · rw [nanocoap_cli_cmd_of_request lib net cfg T clock stack argv h3 h2] at hsent ⊢
        simp only [Option.some.injEq] at hsent
        obtain ⟨ha, _, hc⟩ := _send_spec net cfg T
          (buildRequest lib stack (findCode (argv.getD 1 [])) argv).pkt buflen
          (argv.getD 2 []) (argv.getD 3 [])
        rw [hsent] at ha hc
        have hres : s.res = 0 := hc hnone
        have hr := renderResponse_spec lib
          (pktAfter lib (buildRequest lib stack (findCode (argv.getD 1 [])) argv).pkt s.exchange)
        have hlt : ¬ s.res < 0 := by omega
        rw [hsent, if_neg hlt]
        refine ⟨hres, ?_, ?_⟩
        · simp only [List.any_cons, List.any_append, ha, hr.1, Output.isSendFailed,
            Bool.or_false]
        · simp only [List.any_cons, List.any_append, hr.2, Output.isResponse, Bool.or_true]
      · simp only [nanocoap_cli_cmd, h1, h2, h3, if_false, usageExit] at hsent
        cases hsent

/-- C17 on `coap get nowhere 5683 /a`: the address is rejected, and the command
prints the response line `Error, code 0.01` taken from its own request. -/
theorem rejected_arguments_print_a_response_witness :
    (nanocoap_cli_cmd sampleLib sampleNet riotConfig (silentPeer riotConfig)
      sampleClock sampleStack argvBadAddr).output =
      [Output.sending 1 8 25,
        Output.puts "gcoap_cli: unable to parse destination address",
        Output.response "Error" 0 1, Output.emptyPayload] ∧
    (rejected "gcoap_cli: unable to parse destination address").res = 0 ∧
    (nanocoap_cli_cmd sampleLib sampleNet riotConfig (silentPeer riotConfig)
      sampleClock sampleStack argvBadAddr).output.any Output.isSendFailed = false ∧
    (nanocoap_cli_cmd sampleLib sampleNet riotConfig (silentPeer riotConfig)
      sampleClock sampleStack argvBadAddr).output.any Output.isResponse = true :=
  ⟨by decide,
    rejected_arguments_print_a_response sampleLib sampleNet riotConfig
      (silentPeer riotConfig) sampleClock sampleStack argvBadAddr
      (rejected "gcoap_cli: unable to parse destination address") (by decide) rfl⟩

/-- C18: when `argv[1]` is entry `i` of `method_codes` (`get`, `post`, `put`)
and there are 5 or 6 arguments, the request that the command builds and hands to
`_send` starts from the header that `coap_build_hdr` builds as confirmable, with
the two byte token, the code `i + 1` and the id 1: the packet is what the option
functions (and, with 6 arguments, the copy of the payload) make of that header.
When there is one argument only, or `argv[1]` is not in `method_codes`, the
command builds nothing, does not call `_send`, prints the usage line and
returns 1. -/
theorem method_selects_request_code (lib : CoapLib) (net : NetEnv) (cfg : Config)
    (T : Transport) (clock : Nat → Nat) (stack : Pkt) (argv : List Bytes) :
    (∀ (i : Nat) (hdr : Pkt × Int) (opts : Pkt), i < 3 →
      argv.getD 1 [] = method_codes.getD i [] →
      hdr = lib.coap_build_hdr stack lib.COAP_TYPE_CON token 2 (i + 1) 1 →
      opts = lib.coap_opt_add_string (lib.coap_pkt_init hdr.1 buflen hdr.2)
        lib.COAP_OPT_URI_PATH (argv.getD 4 []) 47 →
      (argv.length = 5 →
        ∃ b, (nanocoap_cli_cmd lib net cfg T clock stack argv).built = some b ∧
          b.pkt = (lib.coap_opt_finish opts lib.COAP_OPT_FINISH_NONE).1 ∧
          b.len = (lib.coap_opt_finish opts lib.COAP_OPT_FINISH_NONE).2 ∧
          (nanocoap_cli_cmd lib net cfg T clock stack argv).sent =
            some (_send net cfg T b.pkt buflen (argv.getD 2 []) (argv.getD 3 []))) ∧
      (argv.length = 6 →
        ∃ (b : Built) (fin : Pkt × Nat),
          fin = lib.coap_opt_finish
            (lib.coap_opt_add_uint opts lib.COAP_OPT_CONTENT_FORMAT lib.COAP_FORMAT_TEXT)
            lib.COAP_OPT_FINISH_PAYLOAD ∧
          (nanocoap_cli_cmd lib net cfg T clock stack argv).built = some b ∧
          b.pkt = { fin.1 with
            payload_len := strlen (argv.getD 5 []) % UINT16_MOD
            buf := writeAt fin.1.buf (fin.1.payload - fin.1.hdr)
              ((argv.getD 5 []).take (strlen (argv.getD 5 []) % UINT16_MOD)) } ∧
          b.len = fin.2 + strlen (argv.getD 5 []) % UINT16_MOD ∧
          (nanocoap_cli_cmd lib net cfg T clock stack argv).sent =
            some (_send net cfg T b.pkt buflen (argv.getD 2 []) (argv.getD 3 [])))) ∧
    ((argv.length = 1 ∨ (2 ≤ argv.length ∧ argv.getD 1 [] ∉ method_codes)) →
      (nanocoap_cli_cmd lib net cfg T clock stack argv).ret = 1 ∧
      (nanocoap_cli_cmd lib net cfg T clock stack argv).output =
        [Output.usage (argv.getD 0 [])] ∧
      (nanocoap_cli_cmd lib net cfg T clock stack argv).built = none ∧
      (nanocoap_cli_cmd lib net cfg T clock stack argv).sent = none) := by
  constructor
  · intro i hdr opts hi harg hhdr hopts
    have hcode : findCode (argv.getD 1 []) = (i : Int) := by
      rw [harg]; exact findCode_of_entry i hi
    have hne : findCode (argv.getD 1 []) ≠ -1 := by rw [hcode]; omega
    have hnat : ((i : Int) + 1).toNat = i + 1 := by omega
    subst hhdr hopts
    constructor
    · intro h5
      have h6 : ¬ argv.length = 6 := by omega
      rw [nanocoap_cli_cmd_of_request lib net cfg T clock stack argv (Or.inl h5) hne]
      refine ⟨_, rfl, ?_, ?_, rfl⟩
      · simp only [buildRequest, h6, if_false, hcode, hnat]
      · simp only [buildRequest, h6, if_false, hcode, hnat]
    · intro h6
      rw [nanocoap_cli_cmd_of_request lib net cfg T clock stack argv (Or.inr h6) hne]
      refine ⟨_, _, rfl, rfl, ?_, ?_, rfl⟩
      · simp only [buildRequest, h6, if_true, hcode, hnat]
      · simp only [buildRequest, h6, if_true, hcode, hnat]
  · intro h
    have hu : argv.length = 1 ∨ findCode (argv.getD 1 []) = -1 := by
      rcases h with h | ⟨_, h⟩
      · exact Or.inl h
      · exact Or.inr (findCode_of_other _ h)
    rw [nanocoap_cli_cmd_of_usage lib net cfg T clock stack argv hu]
    simp [usageExit]

/-- C18 on `coap put fe80::1 5683 /a hi`, where the request that is built and
sent starts with a confirmable header of code 3, on `coap get fe80::1 5683 /a`,
where the code is 1, and on `coap fetch fe80::1 5683 /a`, which only prints the
usage line. -/
theorem method_selects_request_code_witness :
    (∃ b, (nanocoap_cli_cmd sampleLib sampleNet riotConfig (silentPeer riotConfig)
        sampleClock sampleStack argvPut).built = some b ∧
      b.pkt.buf.take 12 = [0x42, 3, 0, 1, 0xDA, 0xEC, 0xB1, 97, 0x10, 0xFF, 104, 105] ∧
      b.len = 12 ∧
      (nanocoap_cli_cmd sampleLib sampleNet riotConfig (silentPeer riotConfig)
        sampleClock sampleStack argvPut).sent =
          some (_send sampleNet riotConfig (silentPeer riotConfig) b.pkt buflen
            (argvPut.getD 2 []) (argvPut.getD 3 []))) ∧
    (∃ b, (nanocoap_cli_cmd sampleLib sampleNet riotConfig (silentPeer riotConfig)
        sampleClock sampleStack argvGet).built = some b ∧
      b.pkt.buf.take 8 = [0x42, 1, 0, 1, 0xDA, 0xEC, 0xB1, 97] ∧
      b.len = 8) ∧
    ((nanocoap_cli_cmd sampleLib sampleNet riotConfig (silentPeer riotConfig)
        sampleClock sampleStack argvFetch).ret = 1 ∧
      (nanocoap_cli_cmd sampleLib sampleNet riotConfig (silentPeer riotConfig)
        sampleClock sampleStack argvFetch).output = [Output.usage (argvFetch.getD 0 [])] ∧
      (nanocoap_cli_cmd sampleLib sampleNet riotConfig (silentPeer riotConfig)
        sampleClock sampleStack argvFetch).built = none ∧
      (nanocoap_cli_cmd sampleLib sampleNet riotConfig (silentPeer riotConfig)
        sampleClock sampleStack argvFetch).sent = none) := by
  refine ⟨?_, ?_, ?_⟩
  · obtain ⟨b, fin, hfin, hb, hpkt, hlen, hsent⟩ :=
      ((method_selects_request_code sampleLib sampleNet riotConfig (silentPeer riotConfig)
        sampleClock sampleStack argvPut).1 2 _ _ (by decide) (by decide) rfl rfl).2
        (by decide)
    refine ⟨b, hb, ?_, ?_, hsent⟩
    · rw [hpkt, hfin]; decide
    · rw [hlen, hfin]; decide
  · obtain ⟨b, hb, hpkt, hlen, _⟩ :=
      ((method_selects_request_code sampleLib sampleNet riotConfig (silentPeer riotConfig)
        sampleClock sampleStack argvGet).1 0 _ _ (by decide) (by decide) rfl rfl).1
        (by decide)
    refine ⟨b, hb, ?_, ?_⟩
    · rw [hpkt]; decide
    · rw [hlen]; decide
  · exact (method_selects_request_code sampleLib sampleNet riotConfig (silentPeer riotConfig)
      sampleClock sampleStack argvFetch).2 (Or.inr (by decide))

end NanocoapCli
